import Mathlib

/-!
Verification of the shadow object-tracking engine shared by the two Vulkan
layers of this repository: the memory tracker (`memorytracker` namespace in
the C++ sources) and the slow-device simulator
(`layersvt/slow_device_simulator.cpp`, `slowdevicesimulator` namespace).

The embedding is shallow: Vulkan handles are opaque `Nat` tokens with `0`
standing for `VK_NULL_HANDLE`, the process-wide `std::unordered_map` shadow
tables become functions `Nat → Option record`, and every intercepted entry
point that the claims touch is translated into a pure Lean function over
that state.  Down-chain (driver) calls are modelled by passing their result
codes in as parameters; the models report whether the down-chain call was
made where a claim depends on it.  Wall-clock reads are passed in as `Nat`
millisecond timestamps.
-/

namespace VulkanTools

/-- Vulkan result codes used by the intercepted entry points.  `other`
covers the remaining codes, which the layers only pass through. -/
inductive VkResult where
  | SUCCESS
  | NOT_READY
  | TIMEOUT
  | INCOMPLETE
  | ERROR_OUT_OF_HOST_MEMORY
  | ERROR_OUT_OF_DEVICE_MEMORY
  | ERROR_INITIALIZATION_FAILED
  | ERROR_LAYER_NOT_PRESENT
  | other (code : Int)
deriving DecidableEq, Repr

/-- A shadow table keyed by opaque API handles, mirroring the
`std::unordered_map<VkHandle, Record *>` globals of both layers. -/
def HandleMap (α : Type) : Type := Nat → Option α

/-- Map lookup, mirroring the `GetXxxMapEntry` helpers (`find` returning
`nullptr` when absent). -/
def HandleMap.lookup {α : Type} (m : HandleMap α) (h : Nat) : Option α := m h

/-- Map insertion via `operator[] = new Record`, as done on successful
creation calls. -/
def HandleMap.insert {α : Type} (m : HandleMap α) (h : Nat) (v : α) : HandleMap α :=
  fun k => if k = h then some v else m k

/-- Plain `map.erase(handle)`. -/
def HandleMap.erase {α : Type} (m : HandleMap α) (h : Nat) : HandleMap α :=
  fun k => if k = h then none else m k

/-- One entry of a memory allocation's list of bound buffers
(`BufferMemoryStruct` in both layers): the buffer handle and its byte
offset into the allocation. -/
structure BufferMemoryStruct where
  buffer : Nat
  offset : Nat
deriving DecidableEq, Repr

/-- One entry of a memory allocation's list of bound images
(`ImageMemoryStruct`).  The simulator additionally captures per-bind
extension metadata (`AdditionalImageMemoryStruct`); that payload plays no
role in any claim and is elided. -/
structure ImageMemoryStruct where
  image : Nat
  offset : Nat
deriving DecidableEq, Repr

/-- A tracked `VkDeviceMemory` allocation (`MemoryMapStruct` in both
layers): the owning device, the `VkMemoryAllocateInfo` fields the claims
use (`allocationSize`, `memoryTypeIndex`), and the ordered binding lists.
The captured extension payload (`AdditionalMemoryStruct`) is elided. -/
structure MemoryMapStruct where
  device : Nat
  allocationSize : Nat
  memoryTypeIndex : Nat
  buffers : List BufferMemoryStruct
  images : List ImageMemoryStruct
deriving DecidableEq, Repr

/-- One shadow heap of the simulator's
`PhysicalDeviceMemoryBudgetProperties` (`MemoryHeapWithBudget`): recorded
(already percent-adjusted) size, running `allocated` counter, and the
budget/usage figures copied from the budget extension query.  Heap flags
are elided. -/
structure MemoryHeapWithBudget where
  size : Nat
  allocated : Nat
  budget : Nat
  usage : Nat
deriving DecidableEq, Repr

/-- The simulator's recorded per-adapter memory table
(`PhysicalDeviceMemoryBudgetProperties`): per-type heap indices and the
heap array.  Property flags are elided. -/
structure PhysicalDeviceMemoryBudgetProperties where
  memoryTypes : List Nat
  memoryHeaps : List MemoryHeapWithBudget
deriving DecidableEq, Repr

/-- `AdjustMemoryByPercent` of the simulator scales a heap size by
`percent / 100`.  The C++ computes `size * (percent/100.0)` in `double`
and truncates back to `VkDeviceSize`; on the inputs appearing in the
claims (e.g. 1000 at 50) the double product is exact, so integer
`size * percent / 100` agrees with it. -/
def AdjustMemoryByPercent (in_size percent : Nat) : Nat :=
  in_size * percent / 100

/-- Result-and-routing outcome of a modelled allocation call: the code the
layer returns and whether the real (down-chain) `vkAllocateMemory` was
invoked. -/
structure AllocOutcome where
  result : VkResult
  downChainCalled : Bool
deriving DecidableEq, Repr

/-- The simulator's `AllocateMemory` (slow_device_simulator.cpp:1352-1471).
With the layer enabled and `memory_percent < 100` it runs the pre-flight
admission check against the recorded heap (`budget` when positive,
otherwise the adjusted `size`) and returns `VK_ERROR_OUT_OF_DEVICE_MEMORY`
without calling down-chain when the check fails; otherwise it forwards,
and on down-chain success inserts the shadow record and (when
`memory_percent < 100`) adds `allocationSize` to the heap's `allocated`
counter.  `downResult` is the code the real driver would return. -/
def simAllocateMemory (layer_enabled : Bool) (memory_percent : Nat) (downResult : VkResult)
    (props : PhysicalDeviceMemoryBudgetProperties) (mem : HandleMap MemoryMapStruct)
    (memHandle device allocationSize memoryTypeIndex : Nat) :
    AllocOutcome × PhysicalDeviceMemoryBudgetProperties × HandleMap MemoryMapStruct :=
  let heapIdx := props.memoryTypes.getD memoryTypeIndex 0
  let heap := props.memoryHeaps.getD heapIdx ⟨0, 0, 0, 0⟩
  let oom : Bool := layer_enabled && decide (memory_percent < 100) &&
    (if 0 < heap.budget then decide (heap.budget < heap.allocated + allocationSize)
     else decide (heap.size < heap.allocated + allocationSize))
  if oom then
    ({ result := VkResult.ERROR_OUT_OF_DEVICE_MEMORY, downChainCalled := false }, props, mem)
  else if downResult = VkResult.SUCCESS then
    if layer_enabled then
      let mem2 := mem.insert memHandle
        { device := device, allocationSize := allocationSize,
          memoryTypeIndex := memoryTypeIndex, buffers := [], images := [] }
      if memory_percent < 100 then
        let props2 := { props with
          memoryHeaps := props.memoryHeaps.set heapIdx
            { heap with allocated := heap.allocated + allocationSize } }
        ({ result := VkResult.SUCCESS, downChainCalled := true }, props2, mem2)
      else
        ({ result := VkResult.SUCCESS, downChainCalled := true }, props, mem2)
    else
      ({ result := VkResult.SUCCESS, downChainCalled := true }, props, mem)
  else
    ({ result := downResult, downChainCalled := true }, props, mem)

/-- The simulator's `FreeMemory` (slow_device_simulator.cpp:1473-1493).
With the layer enabled and `memory_percent < 100` the code reads
`g_memory_map[memory]` with `operator[]` — which default-inserts a null
record pointer when the handle is absent — and immediately dereferences
it to reach `alloc_info.memoryTypeIndex`.  An absent handle therefore
dereferences a null pointer; the model returns `none` for that undefined
behaviour.  When the record exists the heap's `allocated` counter is
decremented by the recorded `allocationSize` and the record is erased
(`EraseMemoryMapEntry`, which is guarded and a no-op on an absent
handle). -/
def simFreeMemory (layer_enabled : Bool) (memory_percent : Nat)
    (props : PhysicalDeviceMemoryBudgetProperties) (mem : HandleMap MemoryMapStruct)
    (memory : Nat) :
    Option (PhysicalDeviceMemoryBudgetProperties × HandleMap MemoryMapStruct) :=
  if layer_enabled then
    if memory_percent < 100 then
      match mem.lookup memory with
      | none => none
      | some memRec =>
        let heapIdx := props.memoryTypes.getD memRec.memoryTypeIndex 0
        let heap := props.memoryHeaps.getD heapIdx ⟨0, 0, 0, 0⟩
        let props2 := { props with
          memoryHeaps := props.memoryHeaps.set heapIdx
            { heap with allocated := heap.allocated - memRec.allocationSize } }
        some (props2, mem.erase memory)
    else
      match mem.lookup memory with
      | none => some (props, mem)
      | some _ => some (props, mem.erase memory)
  else
    some (props, mem)

/-- Claim C2 scenario: the recorded heap after a memory-properties query on
a 1000-unit heap at `memory_percent = 50` (size stored already adjusted,
no budget-extension data, so `budget = 0` and the admission check uses
`size`). -/
def c2Props0 : PhysicalDeviceMemoryBudgetProperties :=
  { memoryTypes := [0],
    memoryHeaps := [{ size := AdjustMemoryByPercent 1000 50, allocated := 0,
                      budget := 0, usage := 0 }] }

/-- Claim C2/C10 scenario: the empty shadow memory map. -/
def c2EmptyMem : HandleMap MemoryMapStruct := fun _ => none

/-- Claim C2 scenario, step 1: allocate 400 units of type 0 (shadow handle
100). -/
def c2Step1 : AllocOutcome × PhysicalDeviceMemoryBudgetProperties × HandleMap MemoryMapStruct :=
  simAllocateMemory true 50 VkResult.SUCCESS c2Props0 c2EmptyMem 100 1 400 0

/-- Claim C2 scenario, step 2: attempt to allocate 200 more units. -/
def c2Step2 : AllocOutcome × PhysicalDeviceMemoryBudgetProperties × HandleMap MemoryMapStruct :=
  simAllocateMemory true 50 VkResult.SUCCESS c2Step1.2.1 c2Step1.2.2 101 1 200 0

/-- Claim C2 scenario, step 3: free the first (400-unit) allocation. -/
def c2Step3 : Option (PhysicalDeviceMemoryBudgetProperties × HandleMap MemoryMapStruct) :=
  simFreeMemory true 50 c2Step2.2.1 c2Step2.2.2 100

/-- Claim C2 scenario, step 4: retry the 200-unit allocation after the
free. -/
def c2Step4 : AllocOutcome × PhysicalDeviceMemoryBudgetProperties × HandleMap MemoryMapStruct :=
  simAllocateMemory true 50 VkResult.SUCCESS
    (c2Step3.getD (c2Props0, c2EmptyMem)).1 (c2Step3.getD (c2Props0, c2EmptyMem)).2 101 1 200 0

/-- C2: with `memory_percent = 50` a 1000-unit heap is reported as 500
units; allocating 400 succeeds and sets `allocated` to 400; a further
200-unit allocation returns `VK_ERROR_OUT_OF_DEVICE_MEMORY` without the
down-chain allocation ever being called and leaves `allocated` at 400;
freeing the 400-unit allocation brings `allocated` back to exactly 0, and
the retried 200-unit allocation then succeeds. -/
theorem simulator_budget_admission_scenario :
    AdjustMemoryByPercent 1000 50 = 500 ∧
    c2Step1.1 = { result := VkResult.SUCCESS, downChainCalled := true } ∧
    (c2Step1.2.1.memoryHeaps.getD 0 ⟨0, 0, 0, 0⟩).allocated = 400 ∧
    c2Step2.1 = { result := VkResult.ERROR_OUT_OF_DEVICE_MEMORY, downChainCalled := false } ∧
    (c2Step2.2.1.memoryHeaps.getD 0 ⟨0, 0, 0, 0⟩).allocated = 400 ∧
    c2Step3.isSome = true ∧
    ((c2Step3.getD (c2Props0, c2EmptyMem)).1.memoryHeaps.getD 0 ⟨0, 0, 0, 0⟩).allocated = 0 ∧
    c2Step4.1 = { result := VkResult.SUCCESS, downChainCalled := true } := by
  decide

/-- C10: in the enabled simulator with `memory_percent < 100`, `FreeMemory`
on a handle with no shadow record — the null handle included — reaches the
null-record dereference (modelled as `none`); the claim that the call
completes safely fails on this input.  With the layer disabled the same
call is a pure passthrough. -/
theorem simulator_free_memory_null_deref :
    simFreeMemory true 50 c2Props0 c2EmptyMem 0 = none ∧
    simFreeMemory true 50 c2Props0 c2EmptyMem 12345 = none ∧
    simFreeMemory false 50 c2Props0 c2EmptyMem 0 = some (c2Props0, c2EmptyMem) := by
  refine ⟨rfl, rfl, rfl⟩

/-- The simulator's fence-delay modes (`FenceDelayType`). -/
inductive FenceDelayType where
  | FENCE_DELAY_NONE
  | FENCE_DELAY_MS_FROM_TRIGGER
  | FENCE_DELAY_MS_FROM_FIRST_QUERY
  | FENCE_DELAY_NUM_FAIL_WAITS
deriving DecidableEq, Repr

/-- A tracked fence (`FenceMapStruct` of the simulator): owning device,
signal/wait flags, the configured delay mode and count, the elapsed
counter (a wait count or milliseconds depending on the mode) and the
recorded start timestamp (milliseconds; the default-constructed C++
`time_point` is modelled as 0). -/
structure FenceMapStruct where
  device : Nat
  signalled : Bool
  wait_started : Bool
  wait_completed : Bool
  delay_type : FenceDelayType
  delay_count : Nat
  elapsed_count : Nat
  start_time : Nat
deriving DecidableEq, Repr

/-- The shadow record built by the simulator's `CreateFence`
(slow_device_simulator.cpp:1678-1699): signalled iff created with
`VK_FENCE_CREATE_SIGNALED_BIT`, delay settings copied from the device,
counters cleared. -/
def simCreateFence (device : Nat) (signaled_flag : Bool) (delay_type : FenceDelayType)
    (delay_count : Nat) : FenceMapStruct :=
  { device := device, signalled := signaled_flag, wait_started := false,
    wait_completed := false, delay_type := delay_type, delay_count := delay_count,
    elapsed_count := 0, start_time := 0 }

/-- The fence-signalling bookkeeping the simulator performs after a
successful signalling operation (`QueueSubmit`, `QueueSubmit2`,
`QueueBindSparse`, `AcquireNextImageKHR`, ...): for the
milliseconds-from-trigger mode the start timestamp is captured at the
signal, and the fence is marked signalled.  A fence with delay mode
`FENCE_DELAY_NONE` is left untouched. -/
def simSignalFence (now : Nat) (f : FenceMapStruct) : FenceMapStruct :=
  if f.delay_type = FenceDelayType.FENCE_DELAY_NONE then f
  else
    let f1 := if f.delay_type = FenceDelayType.FENCE_DELAY_MS_FROM_TRIGGER then
      { f with start_time := now } else f
    { f1 with signalled := true }

/-- The per-fence bookkeeping of the simulator's `ResetFences`
(slow_device_simulator.cpp:1715-1735): signal/wait flags and the elapsed
counter are all cleared. -/
def simResetFence (f : FenceMapStruct) : FenceMapStruct :=
  { f with
    signalled := false, wait_started := false, wait_completed := false,
    elapsed_count := 0 }

/-- The simulator's `GetFenceStatus` (slow_device_simulator.cpp:1737-1784)
for a tracked fence on an enabled device.  The elapsed counter is advanced
per the delay mode (`now` supplies the wall clock for the millisecond
modes), `wait_started` is latched, and the call early-returns
`VK_NOT_READY` (first component `some NOT_READY`) while the fence is
unsignalled or the configured delay exceeds the elapsed amount; otherwise
`wait_completed` is set and the real driver status is consulted and
propagated (first component `none`).  An untracked fence or delay mode
`FENCE_DELAY_NONE` also falls straight through to the driver. -/
def simGetFenceStatus (now : Nat) (f : FenceMapStruct) : Option VkResult × FenceMapStruct :=
  if f.delay_type = FenceDelayType.FENCE_DELAY_NONE then (none, f)
  else
    let f1 := match f.delay_type with
      | FenceDelayType.FENCE_DELAY_MS_FROM_TRIGGER =>
        { f with elapsed_count := f.elapsed_count + (now - f.start_time) }
      | FenceDelayType.FENCE_DELAY_MS_FROM_FIRST_QUERY =>
        if !f.wait_started then { f with start_time := now }
        else { f with elapsed_count := f.elapsed_count + (now - f.start_time) }
      | FenceDelayType.FENCE_DELAY_NUM_FAIL_WAITS =>
        { f with elapsed_count := f.elapsed_count + 1 }
      | FenceDelayType.FENCE_DELAY_NONE => f
    let f2 := if !f1.wait_started then { f1 with wait_started := true } else f1
    if !f2.signalled || decide (f2.delay_count > f2.elapsed_count) then
      (some VkResult.NOT_READY, f2)
    else
      (none, { f2 with wait_completed := true })

/-- Claim C3 scenario: a fresh fence with `num_fail_waits` mode and delay
count 3, then signalled. -/
def c3Fence1 : FenceMapStruct :=
  simSignalFence 10 (simCreateFence 1 false FenceDelayType.FENCE_DELAY_NUM_FAIL_WAITS 3)

/-- Claim C3 scenario: the four successive status queries after
signalling. -/
def c3Query1 : Option VkResult × FenceMapStruct := simGetFenceStatus 11 c3Fence1

/-- Claim C3 scenario, second query. -/
def c3Query2 : Option VkResult × FenceMapStruct := simGetFenceStatus 12 c3Query1.2

/-- Claim C3 scenario, third query. -/
def c3Query3 : Option VkResult × FenceMapStruct := simGetFenceStatus 13 c3Query2.2

/-- Claim C3 scenario, fourth query. -/
def c3Query4 : Option VkResult × FenceMapStruct := simGetFenceStatus 14 c3Query3.2

/-- Claim C3 scenario: the fence after `ResetFences`, a new signal, and the
first query of the new cycle. -/
def c3Reset : FenceMapStruct := simResetFence c3Query4.2

/-- Claim C3 scenario: first status query after resetting and re-signalling
the fence. -/
def c3Query5 : Option VkResult × FenceMapStruct :=
  simGetFenceStatus 21 (simSignalFence 20 c3Reset)

/-- C3: with `num_fail_waits` delay 3, a signalled fence reports
`VK_NOT_READY` on status queries 1 and 2 and consults/propagates the real
fence status from query 3 onward; `ResetFences` returns it to unsignalled
with cleared counter and wait flags, so after the next signal the first
query again reports `VK_NOT_READY`. -/
theorem simulator_fence_fail_count_scenario :
    c3Query1.1 = some VkResult.NOT_READY ∧
    c3Query2.1 = some VkResult.NOT_READY ∧
    c3Query3.1 = none ∧
    c3Query4.1 = none ∧
    c3Reset.signalled = false ∧ c3Reset.wait_started = false ∧
    c3Reset.wait_completed = false ∧ c3Reset.elapsed_count = 0 ∧
    c3Query5.1 = some VkResult.NOT_READY := by
  decide

/-- Per-fence delay bookkeeping inside the simulator's `WaitForFences`
(slow_device_simulator.cpp:1798-1849), for a tracked, signalled fence with
a delay mode: returns the updated fence together with the loop's
`can_timeout`, `can_sleep` and `sleep_time` values.  In the fail-count
mode a timeout of at least one second (1e9 ns) switches to sleeping
`delay_count * 10` ms instead of counting a failure. -/
def simWaitFenceStep (now ms_till_timeout timeout : Nat) (f : FenceMapStruct) :
    FenceMapStruct × Bool × Bool × Nat :=
  match f.delay_type with
  | FenceDelayType.FENCE_DELAY_MS_FROM_TRIGGER =>
    let f1 := { f with elapsed_count := f.elapsed_count + (now - f.start_time) }
    if 0 < ms_till_timeout ∧ f1.elapsed_count < f1.delay_count then
      (f1, true, true, f1.delay_count - f1.elapsed_count)
    else (f1, true, false, 0)
  | FenceDelayType.FENCE_DELAY_MS_FROM_FIRST_QUERY =>
    let f1 := if !f.wait_started then { f with start_time := now }
      else { f with elapsed_count := f.elapsed_count + (now - f.start_time) }
    if 0 < ms_till_timeout ∧ f1.elapsed_count < f1.delay_count then
      (f1, true, true, f1.delay_count - f1.elapsed_count)
    else (f1, true, false, 0)
  | FenceDelayType.FENCE_DELAY_NUM_FAIL_WAITS =>
    if 1000000000 ≤ timeout then (f, false, true, f.delay_count * 10)
    else ({ f with elapsed_count := f.elapsed_count + 1 }, true, false, 0)
  | FenceDelayType.FENCE_DELAY_NONE => (f, true, false, 0)

/-- The fence loop of the simulator's `WaitForFences`
(slow_device_simulator.cpp:1793-1875).  `none` models the early
`return VK_TIMEOUT` taken when `waitAll` is set and a fence is still held
back by its delay; otherwise the updated fence list and the
`wait_for_fences` vector (the handles forwarded to the real wait) are
returned.  Untracked fences and fences that are unsignalled or have delay
mode `FENCE_DELAY_NONE` are forwarded unconditionally, exactly as in the
source. -/
def simWaitLoop (now timeout : Nat) (waitAll : Bool) :
    List (Nat × Option FenceMapStruct) →
    Option (List (Nat × Option FenceMapStruct) × List Nat)
  | [] => some ([], [])
  | (h, of) :: rest =>
    match of with
    | some f =>
      if f.signalled ∧ f.delay_type ≠ FenceDelayType.FENCE_DELAY_NONE then
        let ms := timeout / 1000000
        let step := simWaitFenceStep now ms timeout f
        let f1 := step.1
        let can_timeout := step.2.1
        let can_sleep := step.2.2.1
        let f2 := if !f1.wait_started then { f1 with wait_started := true } else f1
        let total := if can_sleep then f2.elapsed_count + ms else f2.elapsed_count
        if can_timeout ∧ (!f2.signalled ∨ total < f2.delay_count) then
          if waitAll then none
          else (simWaitLoop now timeout waitAll rest).map
            (fun out => ((h, some f2) :: out.1, out.2))
        else
          (simWaitLoop now timeout waitAll rest).map
            (fun out => ((h, some { f2 with wait_completed := true }) :: out.1, h :: out.2))
      else
        (simWaitLoop now timeout waitAll rest).map
          (fun out => ((h, some f) :: out.1, h :: out.2))
    | none =>
      (simWaitLoop now timeout waitAll rest).map
        (fun out => ((h, none) :: out.1, h :: out.2))

/-- Outcome of a modelled `WaitForFences` call: the returned code, whether
the real wait was invoked down-chain, and the fence handles forwarded to
it. -/
structure WaitOutcome where
  result : VkResult
  downChainCalled : Bool
  forwarded : List Nat
deriving DecidableEq, Repr

/-- The simulator's `WaitForFences` on an enabled device
(slow_device_simulator.cpp:1786-1887): run the fence loop; an early
`waitAll` exclusion returns `VK_TIMEOUT` at once; if some fences were
given but every one was excluded by its delay, `VK_TIMEOUT` is returned
without calling down-chain; otherwise the real wait is called on the
forwarded subset and its result (`realResult`) is returned. -/
def simWaitForFences (realResult : VkResult) (now timeout : Nat) (waitAll : Bool)
    (fences : List (Nat × Option FenceMapStruct)) : WaitOutcome :=
  match simWaitLoop now timeout waitAll fences with
  | none => { result := VkResult.TIMEOUT, downChainCalled := false, forwarded := [] }
  | some out =>
    if 0 < fences.length ∧ out.2.length = 0 then
      { result := VkResult.TIMEOUT, downChainCalled := false, forwarded := out.2 }
    else
      { result := realResult, downChainCalled := true, forwarded := out.2 }

/-- Claim C4 scenario: a signalled fail-count fence already past its delay
after this wait's increment (delay 2, one prior failed query). -/
def c4FenceReady : FenceMapStruct :=
  { device := 1, signalled := true, wait_started := true, wait_completed := false,
    delay_type := FenceDelayType.FENCE_DELAY_NUM_FAIL_WAITS, delay_count := 2,
    elapsed_count := 1, start_time := 0 }

/-- Claim C4 scenario: a signalled fail-count fence still short of its
delay (delay 5, no prior queries). -/
def c4FenceDelayed : FenceMapStruct :=
  { device := 1, signalled := true, wait_started := true, wait_completed := false,
    delay_type := FenceDelayType.FENCE_DELAY_NUM_FAIL_WAITS, delay_count := 5,
    elapsed_count := 0, start_time := 0 }

/-- C4: over two signalled delayed fences of which exactly one is past its
delay, a wait-for-all returns `VK_TIMEOUT` immediately without calling
down-chain; a wait-for-any forwards only the ready fence to the real wait
and returns the real wait's result; and in general, whenever fences were
given but the forwarded set is empty, the call returns `VK_TIMEOUT`
without calling down-chain. -/
theorem simulator_wait_for_fences_delay_semantics :
    (∀ r : VkResult,
      simWaitForFences r 0 1000000 true [(1, some c4FenceReady), (2, some c4FenceDelayed)] =
        { result := VkResult.TIMEOUT, downChainCalled := false, forwarded := [] }) ∧
    (∀ r : VkResult,
      simWaitForFences r 0 1000000 false [(1, some c4FenceReady), (2, some c4FenceDelayed)] =
        { result := r, downChainCalled := true, forwarded := [1] }) ∧
    (∀ (r : VkResult) (now timeout : Nat) (waitAll : Bool)
        (fences : List (Nat × Option FenceMapStruct)),
      fences ≠ [] →
      (simWaitForFences r now timeout waitAll fences).forwarded = [] →
      (simWaitForFences r now timeout waitAll fences).result = VkResult.TIMEOUT ∧
      (simWaitForFences r now timeout waitAll fences).downChainCalled = false) := by
  refine ⟨fun r => rfl, fun r => rfl, fun r now timeout waitAll fences hne hfwd => ?_⟩
  rcases hloop : simWaitLoop now timeout waitAll fences with _ | out
  · simp only [simWaitForFences, hloop]
    exact ⟨trivial, trivial⟩
  · simp only [simWaitForFences, hloop] at hfwd ⊢
    by_cases hc : 0 < fences.length ∧ out.2.length = 0
    · simp only [if_pos hc]
      exact ⟨trivial, trivial⟩
    · rw [if_neg hc] at hfwd
      exact absurd ⟨List.length_pos.mpr hne, by rw [show out.2 = [] from hfwd]; rfl⟩ hc

/-- Witness for C4's universal part: a single delayed fence is excluded, the
forwarded set is empty, and the call indeed reports `VK_TIMEOUT` without
calling down-chain. -/
theorem simulator_wait_for_fences_delay_semantics_witness :
    (simWaitForFences VkResult.SUCCESS 0 1000000 false
        [(2, some c4FenceDelayed)]).result = VkResult.TIMEOUT ∧
    (simWaitForFences VkResult.SUCCESS 0 1000000 false
        [(2, some c4FenceDelayed)]).downChainCalled = false :=
  simulator_wait_for_fences_delay_semantics.2.2 VkResult.SUCCESS 0 1000000 false
    [(2, some c4FenceDelayed)] (by decide) (by decide)

/-! ## Memory-binding tracking

`BindBufferMemory`, `BindImageMemory`, `BindBufferMemory2` and
`BindImageMemory2` have the same tracking logic in both layers
(mem_tracker part_001:1487-1656 and slow_device_simulator.cpp:1495-1676):
on a successful down-chain bind with a non-null resource handle, first
scan every allocation's binding list and erase any entry for that handle,
then, when the supplied memory handle is non-null, look up that
allocation's record and append a new binding entry.  The simulator's
`BindImageMemory2` additionally captures per-bind extension metadata into
the appended entry, which does not affect which handles are bound
where. -/

/-- The defensive removal loop run at the start of every successful buffer
bind and by `EraseBufferMapEntry`: every allocation's `buffers` list drops
all entries for handle `b`. -/
def removeBufferBindings (m : HandleMap MemoryMapStruct) (b : Nat) :
    HandleMap MemoryMapStruct :=
  fun k => (m k).map fun r => { r with buffers := r.buffers.filter fun e => e.buffer != b }

/-- The defensive removal loop for image binds and `EraseImageMapEntry`. -/
def removeImageBindings (m : HandleMap MemoryMapStruct) (i : Nat) :
    HandleMap MemoryMapStruct :=
  fun k => (m k).map fun r => { r with images := r.images.filter fun e => e.image != i }

/-- One successful buffer bind (the body of `BindBufferMemory`, and of one
iteration of `BindBufferMemory2`): skipped entirely for a null buffer
handle; otherwise the handle is scrubbed from every allocation, and for a
non-null memory handle a new entry is appended to that allocation's list.
Binding to a memory handle with no shadow record dereferences a null
record pointer in the C++ (`GetMemoryMapEntry` returns `nullptr`);
modelled as `none`. -/
def bindBufferStep (m : HandleMap MemoryMapStruct) (buffer memory offset : Nat) :
    Option (HandleMap MemoryMapStruct) :=
  if buffer = 0 then some m
  else
    let m1 := removeBufferBindings m buffer
    if memory = 0 then some m1
    else
      match m1.lookup memory with
      | some r => some (m1.insert memory { r with buffers := r.buffers ++ [⟨buffer, offset⟩] })
      | none => none

/-- One successful image bind, mirroring `bindBufferStep`. -/
def bindImageStep (m : HandleMap MemoryMapStruct) (image memory offset : Nat) :
    Option (HandleMap MemoryMapStruct) :=
  if image = 0 then some m
  else
    let m1 := removeImageBindings m image
    if memory = 0 then some m1
    else
      match m1.lookup memory with
      | some r => some (m1.insert memory { r with images := r.images ++ [⟨image, offset⟩] })
      | none => none

/-- The element loop of the batch binds (`for (buf = 0; buf < bindInfoCount; ...)`):
each `(resource, memory, offset)` triple is processed in order by the
given single-bind step. -/
def bindInfoList (step : HandleMap MemoryMapStruct → Nat → Nat → Nat →
    Option (HandleMap MemoryMapStruct)) :
    HandleMap MemoryMapStruct → List (Nat × Nat × Nat) → Option (HandleMap MemoryMapStruct)
  | m, [] => some m
  | m, info :: rest =>
    match step m info.1 info.2.1 info.2.2 with
    | some m2 => bindInfoList step m2 rest
    | none => none

/-- A successful bind operation of either layer, as seen by the shadow
memory map: the legacy single binds and the `2`-batch forms. -/
inductive BindOp where
  | bindBufferMemory (buffer memory offset : Nat)
  | bindImageMemory (image memory offset : Nat)
  | bindBufferMemory2 (infos : List (Nat × Nat × Nat))
  | bindImageMemory2 (infos : List (Nat × Nat × Nat))

/-- Effect of one successful bind call on the shadow memory map. -/
def applyBindOp (m : HandleMap MemoryMapStruct) : BindOp → Option (HandleMap MemoryMapStruct)
  | BindOp.bindBufferMemory b mem off => bindBufferStep m b mem off
  | BindOp.bindImageMemory i mem off => bindImageStep m i mem off
  | BindOp.bindBufferMemory2 infos => bindInfoList bindBufferStep m infos
  | BindOp.bindImageMemory2 infos => bindInfoList bindImageStep m infos

/-- Effect of a sequence of successful bind calls. -/
def applyBindOps : HandleMap MemoryMapStruct → List BindOp → Option (HandleMap MemoryMapStruct)
  | m, [] => some m
  | m, op :: rest =>
    match applyBindOp m op with
    | some m2 => applyBindOps m2 rest
    | none => none

/-- Handle `b` occurs in a buffer-binding list. -/
def BoundBuf (l : List BufferMemoryStruct) (b : Nat) : Prop :=
  ∃ e ∈ l, e.buffer = b

/-- Handle `i` occurs in an image-binding list. -/
def BoundImg (l : List ImageMemoryStruct) (i : Nat) : Prop :=
  ∃ e ∈ l, e.image = i

/-- Binding exclusivity for buffers: every buffer handle occurs in the
binding list of at most one tracked allocation. -/
def BufferBindingExclusive (m : HandleMap MemoryMapStruct) : Prop :=
  ∀ b k1 k2 r1 r2, m.lookup k1 = some r1 → m.lookup k2 = some r2 →
    BoundBuf r1.buffers b → BoundBuf r2.buffers b → k1 = k2

/-- Binding exclusivity for images. -/
def ImageBindingExclusive (m : HandleMap MemoryMapStruct) : Prop :=
  ∀ i k1 k2 r1 r2, m.lookup k1 = some r1 → m.lookup k2 = some r2 →
    BoundImg r1.images i → BoundImg r2.images i → k1 = k2

theorem boundBuf_filter {l : List BufferMemoryStruct} {b b0 : Nat}
    (h : BoundBuf (l.filter fun e => e.buffer != b0) b) : BoundBuf l b ∧ b ≠ b0 := by
  obtain ⟨e, he, heq⟩ := h
  rw [List.mem_filter] at he
  refine ⟨⟨e, he.1, heq⟩, fun hbb => ?_⟩
  exact absurd (heq.trans hbb) (bne_iff_ne.mp he.2)

theorem boundImg_filter {l : List ImageMemoryStruct} {i i0 : Nat}
    (h : BoundImg (l.filter fun e => e.image != i0) i) : BoundImg l i ∧ i ≠ i0 := by
  obtain ⟨e, he, heq⟩ := h
  rw [List.mem_filter] at he
  refine ⟨⟨e, he.1, heq⟩, fun hii => ?_⟩
  exact absurd (heq.trans hii) (bne_iff_ne.mp he.2)

theorem boundBuf_append_singleton {l : List BufferMemoryStruct} {b0 off b : Nat}
    (h : BoundBuf (l ++ [⟨b0, off⟩]) b) : BoundBuf l b ∨ b = b0 := by
  obtain ⟨e, he, heq⟩ := h
  rw [List.mem_append] at he
  rcases he with he | he
  · exact Or.inl ⟨e, he, heq⟩
  · rw [List.mem_singleton] at he
    subst he
    exact Or.inr heq.symm

theorem boundImg_append_singleton {l : List ImageMemoryStruct} {i0 off i : Nat}
    (h : BoundImg (l ++ [⟨i0, off⟩]) i) : BoundImg l i ∨ i = i0 := by
  obtain ⟨e, he, heq⟩ := h
  rw [List.mem_append] at he
  rcases he with he | he
  · exact Or.inl ⟨e, he, heq⟩
  · rw [List.mem_singleton] at he
    subst he
    exact Or.inr heq.symm

theorem removeBufferBindings_lookup {m : HandleMap MemoryMapStruct} {b0 k : Nat}
    {r : MemoryMapStruct} (h : (removeBufferBindings m b0).lookup k = some r) :
    ∃ r0, m.lookup k = some r0 ∧
      r = { r0 with buffers := r0.buffers.filter fun e => e.buffer != b0 } := by
  simp only [removeBufferBindings, HandleMap.lookup] at h
  cases hm : m k with
  | none => rw [hm] at h; exact absurd h (by simp)
  | some r0 =>
    rw [hm] at h
    rw [Option.map_some'] at h
    exact ⟨r0, hm, (Option.some.inj h).symm⟩

theorem removeImageBindings_lookup {m : HandleMap MemoryMapStruct} {i0 k : Nat}
    {r : MemoryMapStruct} (h : (removeImageBindings m i0).lookup k = some r) :
    ∃ r0, m.lookup k = some r0 ∧
      r = { r0 with images := r0.images.filter fun e => e.image != i0 } := by
  simp only [removeImageBindings, HandleMap.lookup] at h
  cases hm : m k with
  | none => rw [hm] at h; exact absurd h (by simp)
  | some r0 =>
    rw [hm] at h
    rw [Option.map_some'] at h
    exact ⟨r0, hm, (Option.some.inj h).symm⟩

theorem removeBufferBindings_not_bound {m : HandleMap MemoryMapStruct} {b0 k : Nat}
    {r : MemoryMapStruct} (h : (removeBufferBindings m b0).lookup k = some r) :
    ¬ BoundBuf r.buffers b0 := by
  obtain ⟨r0, _, rfl⟩ := removeBufferBindings_lookup h
  intro hb
  exact (boundBuf_filter hb).2 rfl

theorem removeImageBindings_not_bound {m : HandleMap MemoryMapStruct} {i0 k : Nat}
    {r : MemoryMapStruct} (h : (removeImageBindings m i0).lookup k = some r) :
    ¬ BoundImg r.images i0 := by
  obtain ⟨r0, _, rfl⟩ := removeImageBindings_lookup h
  intro hi
  exact (boundImg_filter hi).2 rfl

theorem bufferExclusive_removeBuffer {m : HandleMap MemoryMapStruct} {b0 : Nat}
    (h : BufferBindingExclusive m) :
    BufferBindingExclusive (removeBufferBindings m b0) := by
  intro b k1 k2 r1 r2 h1 h2 hb1 hb2
  obtain ⟨s1, hm1, rfl⟩ := removeBufferBindings_lookup h1
  obtain ⟨s2, hm2, rfl⟩ := removeBufferBindings_lookup h2
  exact h b k1 k2 s1 s2 hm1 hm2 (boundBuf_filter hb1).1 (boundBuf_filter hb2).1

theorem imageExclusive_removeImage {m : HandleMap MemoryMapStruct} {i0 : Nat}
    (h : ImageBindingExclusive m) :
    ImageBindingExclusive (removeImageBindings m i0) := by
  intro i k1 k2 r1 r2 h1 h2 hi1 hi2
  obtain ⟨s1, hm1, rfl⟩ := removeImageBindings_lookup h1
  obtain ⟨s2, hm2, rfl⟩ := removeImageBindings_lookup h2
  exact h i k1 k2 s1 s2 hm1 hm2 (boundImg_filter hi1).1 (boundImg_filter hi2).1

theorem bufferExclusive_of_buffers_eq {m m2 : HandleMap MemoryMapStruct}
    (hpt : ∀ k r2, m2.lookup k = some r2 → ∃ r1, m.lookup k = some r1 ∧ r2.buffers = r1.buffers)
    (h : BufferBindingExclusive m) : BufferBindingExclusive m2 := by
  intro b k1 k2 r1 r2 h1 h2 hb1 hb2
  obtain ⟨s1, hm1, he1⟩ := hpt k1 r1 h1
  obtain ⟨s2, hm2, he2⟩ := hpt k2 r2 h2
  exact h b k1 k2 s1 s2 hm1 hm2 (he1 ▸ hb1) (he2 ▸ hb2)

theorem imageExclusive_of_images_eq {m m2 : HandleMap MemoryMapStruct}
    (hpt : ∀ k r2, m2.lookup k = some r2 → ∃ r1, m.lookup k = some r1 ∧ r2.images = r1.images)
    (h : ImageBindingExclusive m) : ImageBindingExclusive m2 := by
  intro i k1 k2 r1 r2 h1 h2 hi1 hi2
  obtain ⟨s1, hm1, he1⟩ := hpt k1 r1 h1
  obtain ⟨s2, hm2, he2⟩ := hpt k2 r2 h2
  exact h i k1 k2 s1 s2 hm1 hm2 (he1 ▸ hi1) (he2 ▸ hi2)

theorem removeBufferBindings_images_eq {m : HandleMap MemoryMapStruct} {b0 : Nat} :
    ∀ k r2, (removeBufferBindings m b0).lookup k = some r2 →
      ∃ r1, m.lookup k = some r1 ∧ r2.images = r1.images := by
  intro k r2 h
  obtain ⟨r0, hm, rfl⟩ := removeBufferBindings_lookup h
  exact ⟨r0, hm, rfl⟩

theorem removeImageBindings_buffers_eq {m : HandleMap MemoryMapStruct} {i0 : Nat} :
    ∀ k r2, (removeImageBindings m i0).lookup k = some r2 →
      ∃ r1, m.lookup k = some r1 ∧ r2.buffers = r1.buffers := by
  intro k r2 h
  obtain ⟨r0, hm, rfl⟩ := removeImageBindings_lookup h
  exact ⟨r0, hm, rfl⟩

theorem insert_lookup_eq {α : Type} (m : HandleMap α) (h : Nat) (v : α) {k : Nat}
    (hk : k = h) : (m.insert h v).lookup k = some v := by
  show (if k = h then some v else m k) = some v
  rw [if_pos hk]

theorem insert_lookup_ne {α : Type} (m : HandleMap α) (h : Nat) (v : α) {k : Nat}
    (hk : ¬ k = h) : (m.insert h v).lookup k = m.lookup k := by
  show (if k = h then some v else m k) = m k
  rw [if_neg hk]

theorem bindBufferStep_exclusive {m m2 : HandleMap MemoryMapStruct} {b mem off : Nat}
    (hB : BufferBindingExclusive m) (hI : ImageBindingExclusive m)
    (h : bindBufferStep m b mem off = some m2) :
    BufferBindingExclusive m2 ∧ ImageBindingExclusive m2 := by
  unfold bindBufferStep at h
  by_cases hb0 : b = 0
  · rw [if_pos hb0] at h
    cases h
    exact ⟨hB, hI⟩
  · rw [if_neg hb0] at h
    by_cases hm0 : mem = 0
    · rw [if_pos hm0] at h
      cases h
      exact ⟨bufferExclusive_removeBuffer hB,
        imageExclusive_of_images_eq removeBufferBindings_images_eq hI⟩
    · rw [if_neg hm0] at h
      cases hl : (removeBufferBindings m b).lookup mem with
      | none => rw [hl] at h; exact absurd h (by simp)
      | some r =>
        rw [hl] at h
        cases h
        have hm1B : BufferBindingExclusive (removeBufferBindings m b) :=
          bufferExclusive_removeBuffer hB
        constructor
        · intro x k1 k2 r1 r2 h1 h2 hx1 hx2
          by_cases e1 : k1 = mem
          · by_cases e2 : k2 = mem
            · exact e1.trans e2.symm
            · rw [insert_lookup_eq _ _ _ e1] at h1
              cases h1
              rw [insert_lookup_ne _ _ _ e2] at h2
              rcases boundBuf_append_singleton hx1 with hx1 | rfl
              · exact e1.trans (hm1B x mem k2 r r2 hl h2 hx1 hx2)
              · exact absurd hx2 (removeBufferBindings_not_bound h2)
          · by_cases e2 : k2 = mem
            · rw [insert_lookup_eq _ _ _ e2] at h2
              cases h2
              rw [insert_lookup_ne _ _ _ e1] at h1
              rcases boundBuf_append_singleton hx2 with hx2 | rfl
              · exact (hm1B x mem k1 r r1 hl h1 hx2 hx1).symm.trans e2.symm
              · exact absurd hx1 (removeBufferBindings_not_bound h1)
            · rw [insert_lookup_ne _ _ _ e1] at h1
              rw [insert_lookup_ne _ _ _ e2] at h2
              exact hm1B x k1 k2 r1 r2 h1 h2 hx1 hx2
        · refine imageExclusive_of_images_eq ?_ hI
          intro k r2 hk
          by_cases ek : k = mem
          · rw [insert_lookup_eq _ _ _ ek] at hk
            cases hk
            obtain ⟨r0, hm0l, hr0⟩ := removeBufferBindings_lookup hl
            exact ⟨r0, ek ▸ hm0l, by rw [hr0]⟩
          · rw [insert_lookup_ne _ _ _ ek] at hk
            exact removeBufferBindings_images_eq k r2 hk

theorem bindImageStep_exclusive {m m2 : HandleMap MemoryMapStruct} {i mem off : Nat}
    (hB : BufferBindingExclusive m) (hI : ImageBindingExclusive m)
    (h : bindImageStep m i mem off = some m2) :
    BufferBindingExclusive m2 ∧ ImageBindingExclusive m2 := by
  unfold bindImageStep at h
  by_cases hi0 : i = 0
  · rw [if_pos hi0] at h
    cases h
    exact ⟨hB, hI⟩
  · rw [if_neg hi0] at h
    by_cases hm0 : mem = 0
    · rw [if_pos hm0] at h
      cases h
      exact ⟨bufferExclusive_of_buffers_eq removeImageBindings_buffers_eq hB,
        imageExclusive_removeImage hI⟩
    · rw [if_neg hm0] at h
      cases hl : (removeImageBindings m i).lookup mem with
      | none => rw [hl] at h; exact absurd h (by simp)
      | some r =>
        rw [hl] at h
        cases h
        have hm1I : ImageBindingExclusive (removeImageBindings m i) :=
          imageExclusive_removeImage hI
        constructor
        · refine bufferExclusive_of_buffers_eq ?_ hB
          intro k r2 hk
          by_cases ek : k = mem
          · rw [insert_lookup_eq _ _ _ ek] at hk
            cases hk
            obtain ⟨r0, hm0l, hr0⟩ := removeImageBindings_lookup hl
            exact ⟨r0, ek ▸ hm0l, by rw [hr0]⟩
          · rw [insert_lookup_ne _ _ _ ek] at hk
            exact removeImageBindings_buffers_eq k r2 hk
        · intro x k1 k2 r1 r2 h1 h2 hx1 hx2
          by_cases e1 : k1 = mem
          · by_cases e2 : k2 = mem
            · exact e1.trans e2.symm
            · rw [insert_lookup_eq _ _ _ e1] at h1
              cases h1
              rw [insert_lookup_ne _ _ _ e2] at h2
              rcases boundImg_append_singleton hx1 with hx1 | rfl
              · exact e1.trans (hm1I x mem k2 r r2 hl h2 hx1 hx2)
              · exact absurd hx2 (removeImageBindings_not_bound h2)
          · by_cases e2 : k2 = mem
            · rw [insert_lookup_eq _ _ _ e2] at h2
              cases h2
              rw [insert_lookup_ne _ _ _ e1] at h1
              rcases boundImg_append_singleton hx2 with hx2 | rfl
              · exact (hm1I x mem k1 r r1 hl h1 hx2 hx1).symm.trans e2.symm
              · exact absurd hx1 (removeImageBindings_not_bound h1)
            · rw [insert_lookup_ne _ _ _ e1] at h1
              rw [insert_lookup_ne _ _ _ e2] at h2
              exact hm1I x k1 k2 r1 r2 h1 h2 hx1 hx2

theorem bindInfoList_buffer_exclusive :
    ∀ (infos : List (Nat × Nat × Nat)) (m m2 : HandleMap MemoryMapStruct),
    BufferBindingExclusive m → ImageBindingExclusive m →
    bindInfoList bindBufferStep m infos = some m2 →
    BufferBindingExclusive m2 ∧ ImageBindingExclusive m2 := by
  intro infos
  induction infos with
  | nil =>
    intro m m2 hB hI h
    cases h
    exact ⟨hB, hI⟩
  | cons info rest ih =>
    intro m m2 hB hI h
    unfold bindInfoList at h
    cases hstep : bindBufferStep m info.1 info.2.1 info.2.2 with
    | none => rw [hstep] at h; exact absurd h (by simp)
    | some m1 =>
      rw [hstep] at h
      obtain ⟨hB1, hI1⟩ := bindBufferStep_exclusive hB hI hstep
      exact ih m1 m2 hB1 hI1 h

theorem bindInfoList_image_exclusive :
    ∀ (infos : List (Nat × Nat × Nat)) (m m2 : HandleMap MemoryMapStruct),
    BufferBindingExclusive m → ImageBindingExclusive m →
    bindInfoList bindImageStep m infos = some m2 →
    BufferBindingExclusive m2 ∧ ImageBindingExclusive m2 := by
  intro infos
  induction infos with
  | nil =>
    intro m m2 hB hI h
    cases h
    exact ⟨hB, hI⟩
  | cons info rest ih =>
    intro m m2 hB hI h
    unfold bindInfoList at h
    cases hstep : bindImageStep m info.1 info.2.1 info.2.2 with
    | none => rw [hstep] at h; exact absurd h (by simp)
    | some m1 =>
      rw [hstep] at h
      obtain ⟨hB1, hI1⟩ := bindImageStep_exclusive hB hI hstep
      exact ih m1 m2 hB1 hI1 h

theorem applyBindOp_exclusive {m m2 : HandleMap MemoryMapStruct} {op : BindOp}
    (hB : BufferBindingExclusive m) (hI : ImageBindingExclusive m)
    (h : applyBindOp m op = some m2) :
    BufferBindingExclusive m2 ∧ ImageBindingExclusive m2 := by
  cases op with
  | bindBufferMemory b mem off => exact bindBufferStep_exclusive hB hI h
  | bindImageMemory i mem off => exact bindImageStep_exclusive hB hI h
  | bindBufferMemory2 infos => exact bindInfoList_buffer_exclusive infos m m2 hB hI h
  | bindImageMemory2 infos => exact bindInfoList_image_exclusive infos m m2 hB hI h

/-- C1: after any sequence of successful `BindBufferMemory` /
`BindImageMemory` / `BindBufferMemory2` / `BindImageMemory2` operations
(identical tracking logic in both layers), starting from any shadow
memory map in which every buffer and every image is bound to at most one
allocation, every buffer and every image is still bound to at most one
allocation: each successful bind first removes any prior occurrence of
the handle from every allocation's binding list before appending the one
new entry. -/
theorem binding_exclusivity_invariant :
    ∀ (ops : List BindOp) (m m2 : HandleMap MemoryMapStruct),
    BufferBindingExclusive m → ImageBindingExclusive m →
    applyBindOps m ops = some m2 →
    BufferBindingExclusive m2 ∧ ImageBindingExclusive m2 := by
  intro ops
  induction ops with
  | nil =>
    intro m m2 hB hI h
    cases h
    exact ⟨hB, hI⟩
  | cons op rest ih =>
    intro m m2 hB hI h
    unfold applyBindOps at h
    cases hstep : applyBindOp m op with
    | none => rw [hstep] at h; exact absurd h (by simp)
    | some m1 =>
      rw [hstep] at h
      obtain ⟨hB1, hI1⟩ := applyBindOp_exclusive hB hI hstep
      exact ih m1 m2 hB1 hI1 h

/-- A shadow memory map with a single tracked allocation holding buffer 5
at offset 0, used to instantiate the invariant theorem. -/
def c1Start : HandleMap MemoryMapStruct := fun k =>
  if k = 1 then
    some { device := 1, allocationSize := 64, memoryTypeIndex := 0,
           buffers := [⟨5, 0⟩], images := [⟨6, 0⟩] }
  else none

theorem singleKey_bufferExclusive (K : Nat) (r : MemoryMapStruct) :
    BufferBindingExclusive (fun k => if k = K then some r else none) := by
  intro b k1 k2 r1 r2 h1 h2 _ _
  simp only [HandleMap.lookup] at h1 h2
  by_cases e1 : k1 = K
  · by_cases e2 : k2 = K
    · exact e1.trans e2.symm
    · rw [if_neg e2] at h2
      exact absurd h2 (by simp)
  · rw [if_neg e1] at h1
    exact absurd h1 (by simp)

theorem singleKey_imageExclusive (K : Nat) (r : MemoryMapStruct) :
    ImageBindingExclusive (fun k => if k = K then some r else none) := by
  intro i k1 k2 r1 r2 h1 h2 _ _
  simp only [HandleMap.lookup] at h1 h2
  by_cases e1 : k1 = K
  · by_cases e2 : k2 = K
    · exact e1.trans e2.symm
    · rw [if_neg e2] at h2
      exact absurd h2 (by simp)
  · rw [if_neg e1] at h1
    exact absurd h1 (by simp)

/-- Witness for C1: applying an unbind (`BindBufferMemory` with a null
memory handle) of buffer 5 to a concrete map with a bound buffer keeps
the exclusivity invariant. -/
theorem binding_exclusivity_invariant_witness :
    BufferBindingExclusive (removeBufferBindings c1Start 5) ∧
    ImageBindingExclusive (removeBufferBindings c1Start 5) :=
  binding_exclusivity_invariant [BindOp.bindBufferMemory 5 0 0] c1Start
    (removeBufferBindings c1Start 5)
    (singleKey_bufferExclusive 1 _) (singleKey_imageExclusive 1 _) rfl

/-! ## Handle registry and cascade semantics

The `EraseXxxMapEntry` helpers have the same shape in both layers
(mem_tracker part_001:255-407, slow_device_simulator.cpp:315-484): look
the handle up, and only when a record exists delete it and erase the map
entry; erasing a buffer or image additionally scans every memory
allocation's binding list and drops entries for the erased handle, while
erasing a memory allocation touches no other table.  `DestroyDevice`
(part_001:1100-1114, slow_device_simulator.cpp:1052-1068) calls down the
chain, then erases the external-memory-fd records owned by the device
(and on Android the hardware-buffer records) and finally the device
record itself. -/

/-- Shadow record of a tracked instance (`InstanceMapStruct`); the
dispatch table and settings are elided. -/
structure InstanceMapStruct where
  layer_enabled : Bool
deriving DecidableEq, Repr

/-- Shadow record of a tracked device (`DeviceMapStruct`); dispatch table
and per-device settings elided. -/
structure DeviceMapStruct where
  physical_device : Nat
deriving DecidableEq, Repr

/-- Shadow record of a tracked buffer (`BufferMapStruct`); creation info,
captured extension payload and cached requirements elided. -/
structure BufferMapStruct where
  device : Nat
deriving DecidableEq, Repr

/-- Shadow record of a tracked image (`ImageMapStruct`). -/
structure ImageMapStruct where
  device : Nat
deriving DecidableEq, Repr

/-- Shadow record of an imported external-memory file descriptor
(`ExternalMemFdMapStruct`). -/
structure ExternalMemFdMapStruct where
  device : Nat
  memory_type : Nat
deriving DecidableEq, Repr

/-- The full set of shadow tables of a layer (the `g_..._map` globals).
The memory tracker has no fence table; the simulator has all of these. -/
structure LayerState where
  instances : HandleMap InstanceMapStruct
  devices : HandleMap DeviceMapStruct
  buffers : HandleMap BufferMapStruct
  images : HandleMap ImageMapStruct
  memories : HandleMap MemoryMapStruct
  fences : HandleMap FenceMapStruct
  extMemFds : HandleMap ExternalMemFdMapStruct

/-- `EraseInstanceMapEntry`: guarded delete of the instance record. -/
def EraseInstanceMapEntry (s : LayerState) (h : Nat) : LayerState :=
  match s.instances.lookup h with
  | none => s
  | some _ => { s with instances := s.instances.erase h }

/-- `EraseDeviceMapEntry`: guarded delete of the device record. -/
def EraseDeviceMapEntry (s : LayerState) (h : Nat) : LayerState :=
  match s.devices.lookup h with
  | none => s
  | some _ => { s with devices := s.devices.erase h }

/-- `EraseFenceMapEntry` (simulator): guarded delete of the fence
record. -/
def EraseFenceMapEntry (s : LayerState) (h : Nat) : LayerState :=
  match s.fences.lookup h with
  | none => s
  | some _ => { s with fences := s.fences.erase h }

/-- `EraseMemoryMapEntry`: guarded delete of the allocation record; the
buffer and image tables are untouched. -/
def EraseMemoryMapEntry (s : LayerState) (h : Nat) : LayerState :=
  match s.memories.lookup h with
  | none => s
  | some _ => { s with memories := s.memories.erase h }

/-- `EraseBufferMapEntry`: guarded delete of the buffer record, cascading
the removal of the handle from every allocation's buffer-binding list. -/
def EraseBufferMapEntry (s : LayerState) (h : Nat) : LayerState :=
  match s.buffers.lookup h with
  | none => s
  | some _ =>
    { s with
      buffers := s.buffers.erase h
      memories := removeBufferBindings s.memories h }

/-- `EraseImageMapEntry`: guarded delete of the image record, cascading
the removal of the handle from every allocation's image-binding list. -/
def EraseImageMapEntry (s : LayerState) (h : Nat) : LayerState :=
  match s.images.lookup h with
  | none => s
  | some _ =>
    { s with
      images := s.images.erase h
      memories := removeImageBindings s.memories h }

/-- `EraseExternalMemFdMapEntries`: the restart-loop that erases every
external-memory-fd record owned by the device. -/
def EraseExternalMemFdMapEntries (s : LayerState) (d : Nat) : LayerState :=
  { s with
    extMemFds := fun fd =>
      match s.extMemFds fd with
      | some r => if r.device = d then none else some r
      | none => none }

/-- The shadow-table effect of `DestroyDevice` in both layers: erase the
device's external-memory-fd records, then the device record itself.  (The
Android hardware-buffer table, compiled only under `#ifdef ANDROID`, is
not modelled.)  No buffer, image, memory or fence record is touched. -/
def DestroyDeviceShadow (s : LayerState) (d : Nat) : LayerState :=
  EraseDeviceMapEntry (EraseExternalMemFdMapEntries s d) d

/-- C5 (amended): erasing a memory-allocation record leaves all buffer and
image records unchanged; erasing a buffer (resp. image) record removes
that handle from every allocation's buffer (resp. image) binding list;
and destroying a device erases exactly the device's external-memory-fd
records and the device record itself — its buffer, image,
memory-allocation and fence records are left in the shadow tables. -/
theorem registry_cascade_semantics :
    (∀ (s : LayerState) (h : Nat),
      (EraseMemoryMapEntry s h).buffers = s.buffers ∧
      (EraseMemoryMapEntry s h).images = s.images) ∧
    (∀ (s : LayerState) (b : Nat) (br : BufferMapStruct) (k : Nat) (r : MemoryMapStruct),
      s.buffers.lookup b = some br →
      (EraseBufferMapEntry s b).memories.lookup k = some r →
      ¬ BoundBuf r.buffers b) ∧
    (∀ (s : LayerState) (i : Nat) (ir : ImageMapStruct) (k : Nat) (r : MemoryMapStruct),
      s.images.lookup i = some ir →
      (EraseImageMapEntry s i).memories.lookup k = some r →
      ¬ BoundImg r.images i) ∧
    (∀ (s : LayerState) (d : Nat),
      (DestroyDeviceShadow s d).buffers = s.buffers ∧
      (DestroyDeviceShadow s d).images = s.images ∧
      (DestroyDeviceShadow s d).memories = s.memories ∧
      (DestroyDeviceShadow s d).fences = s.fences ∧
      (DestroyDeviceShadow s d).devices.lookup d = none ∧
      (∀ (fd : Nat) (r : ExternalMemFdMapStruct),
        (DestroyDeviceShadow s d).extMemFds.lookup fd = some r → r.device ≠ d)) := by
  refine ⟨?_, ?_, ?_, ?_⟩
  · intro s h
    unfold EraseMemoryMapEntry
    cases s.memories.lookup h <;> exact ⟨rfl, rfl⟩
  · intro s b br k r hb h
    rw [EraseBufferMapEntry] at h
    rw [hb] at h
    exact removeBufferBindings_not_bound h
  · intro s i ir k r hi h
    rw [EraseImageMapEntry] at h
    rw [hi] at h
    exact removeImageBindings_not_bound h
  · intro s d
    have eraseDevBuf : ∀ t : LayerState, (EraseDeviceMapEntry t d).buffers = t.buffers := by
      intro t
      unfold EraseDeviceMapEntry
      cases t.devices.lookup d <;> rfl
    have eraseDevImg : ∀ t : LayerState, (EraseDeviceMapEntry t d).images = t.images := by
      intro t
      unfold EraseDeviceMapEntry
      cases t.devices.lookup d <;> rfl
    have eraseDevMem : ∀ t : LayerState, (EraseDeviceMapEntry t d).memories = t.memories := by
      intro t
      unfold EraseDeviceMapEntry
      cases t.devices.lookup d <;> rfl
    have eraseDevFen : ∀ t : LayerState, (EraseDeviceMapEntry t d).fences = t.fences := by
      intro t
      unfold EraseDeviceMapEntry
      cases t.devices.lookup d <;> rfl
    have eraseDevExt : ∀ t : LayerState, (EraseDeviceMapEntry t d).extMemFds = t.extMemFds := by
      intro t
      unfold EraseDeviceMapEntry
      cases t.devices.lookup d <;> rfl
    have eraseDevNone : ∀ t : LayerState, (EraseDeviceMapEntry t d).devices.lookup d = none := by
      intro t
      unfold EraseDeviceMapEntry
      cases hl : t.devices.lookup d with
      | none => exact hl
      | some _ =>
        show (if d = d then none else _) = none
        rw [if_pos rfl]
    refine ⟨eraseDevBuf _, eraseDevImg _, eraseDevMem _, eraseDevFen _, eraseDevNone _, ?_⟩
    intro fd r h
    rw [show (DestroyDeviceShadow s d).extMemFds =
        (EraseExternalMemFdMapEntries s d).extMemFds from eraseDevExt _] at h
    simp only [EraseExternalMemFdMapEntries, HandleMap.lookup] at h
    cases hf : s.extMemFds fd with
    | none => rw [hf] at h; exact absurd h (by simp)
    | some r0 =>
      rw [hf] at h
      have h2 : (if r0.device = d then none else some r0) = some r := h
      by_cases hrd : r0.device = d
      · rw [if_pos hrd] at h2
        exact absurd h2 (by simp)
      · rw [if_neg hrd] at h2
        cases h2
        exact hrd

/-- A concrete layer state for C5: device 7 owns buffer 1, image 2, memory
allocation 3 (with buffer 1 bound), fence 4 and an external-memory fd
record at key 9. -/
def c5State : LayerState :=
  { instances := fun _ => none
    devices := fun k => if k = 7 then some { physical_device := 3 } else none
    buffers := fun k => if k = 1 then some { device := 7 } else none
    images := fun k => if k = 2 then some { device := 7 } else none
    memories := fun k =>
      if k = 3 then
        some { device := 7, allocationSize := 64, memoryTypeIndex := 0,
               buffers := [⟨1, 0⟩], images := [] }
      else none
    fences := fun k =>
      if k = 4 then some (simCreateFence 7 false FenceDelayType.FENCE_DELAY_NONE 0) else none
    extMemFds := fun k => if k = 9 then some { device := 7, memory_type := 1 } else none }

/-- Counterexample to C5 as stated: destroying device 7 leaves its buffer,
image, memory-allocation and fence records in the shadow tables (the
claim says they are all removed). -/
theorem registry_cascade_counterexample :
    (DestroyDeviceShadow c5State 7).buffers 1 = some { device := 7 } ∧
    (DestroyDeviceShadow c5State 7).images 2 = some { device := 7 } ∧
    (DestroyDeviceShadow c5State 7).memories 3 ≠ none ∧
    (DestroyDeviceShadow c5State 7).fences 4 ≠ none ∧
    (DestroyDeviceShadow c5State 7).devices 7 = none ∧
    (DestroyDeviceShadow c5State 7).extMemFds 9 = none := by
  decide

/-- Witness for C5: the cascade facts applied at the concrete state: after
erasing buffer 1, allocation 3's binding list no longer holds it. -/
theorem registry_cascade_semantics_witness :
    ¬ BoundBuf (MemoryMapStruct.buffers
      { device := 7, allocationSize := 64, memoryTypeIndex := 0,
        buffers := [], images := [] }) 1 :=
  registry_cascade_semantics.2.1 c5State 1 { device := 7 } 3
    { device := 7, allocationSize := 64, memoryTypeIndex := 0, buffers := [], images := [] }
    rfl rfl

/-- C8: every registry erase helper (buffer, image, memory, fence, device,
instance) is a no-op on a handle absent from its map — all shadow tables
are left unchanged — and erasing twice has the same effect on the tables
as erasing once. -/
theorem registry_erase_idempotent :
    ∀ (s : LayerState) (h : Nat),
    (s.buffers.lookup h = none → EraseBufferMapEntry s h = s) ∧
    EraseBufferMapEntry (EraseBufferMapEntry s h) h = EraseBufferMapEntry s h ∧
    (s.images.lookup h = none → EraseImageMapEntry s h = s) ∧
    EraseImageMapEntry (EraseImageMapEntry s h) h = EraseImageMapEntry s h ∧
    (s.memories.lookup h = none → EraseMemoryMapEntry s h = s) ∧
    EraseMemoryMapEntry (EraseMemoryMapEntry s h) h = EraseMemoryMapEntry s h ∧
    (s.fences.lookup h = none → EraseFenceMapEntry s h = s) ∧
    EraseFenceMapEntry (EraseFenceMapEntry s h) h = EraseFenceMapEntry s h ∧
    (s.devices.lookup h = none → EraseDeviceMapEntry s h = s) ∧
    EraseDeviceMapEntry (EraseDeviceMapEntry s h) h = EraseDeviceMapEntry s h ∧
    (s.instances.lookup h = none → EraseInstanceMapEntry s h = s) ∧
    EraseInstanceMapEntry (EraseInstanceMapEntry s h) h = EraseInstanceMapEntry s h := by
  intro s h
  have eraseNone : ∀ {α : Type} (m : HandleMap α), (m.erase h).lookup h = none := by
    intro α m
    show (if h = h then none else m h) = none
    rw [if_pos rfl]
  have hbuf : (EraseBufferMapEntry s h).buffers.lookup h = none := by
    unfold EraseBufferMapEntry
    cases hl : s.buffers.lookup h with
    | none => exact hl
    | some _ => exact eraseNone s.buffers
  have himg : (EraseImageMapEntry s h).images.lookup h = none := by
    unfold EraseImageMapEntry
    cases hl : s.images.lookup h with
    | none => exact hl
    | some _ => exact eraseNone s.images
  have hmem : (EraseMemoryMapEntry s h).memories.lookup h = none := by
    unfold EraseMemoryMapEntry
    cases hl : s.memories.lookup h with
    | none => exact hl
    | some _ => exact eraseNone s.memories
  have hfen : (EraseFenceMapEntry s h).fences.lookup h = none := by
    unfold EraseFenceMapEntry
    cases hl : s.fences.lookup h with
    | none => exact hl
    | some _ => exact eraseNone s.fences
  have hdev : (EraseDeviceMapEntry s h).devices.lookup h = none := by
    unfold EraseDeviceMapEntry
    cases hl : s.devices.lookup h with
    | none => exact hl
    | some _ => exact eraseNone s.devices
  have hins : (EraseInstanceMapEntry s h).instances.lookup h = none := by
    unfold EraseInstanceMapEntry
    cases hl : s.instances.lookup h with
    | none => exact hl
    | some _ => exact eraseNone s.instances
  have noopBuf : ∀ t : LayerState, t.buffers.lookup h = none → EraseBufferMapEntry t h = t := by
    intro t ht
    unfold EraseBufferMapEntry
    rw [ht]
  have noopImg : ∀ t : LayerState, t.images.lookup h = none → EraseImageMapEntry t h = t := by
    intro t ht
    unfold EraseImageMapEntry
    rw [ht]
  have noopMem : ∀ t : LayerState, t.memories.lookup h = none → EraseMemoryMapEntry t h = t := by
    intro t ht
    unfold EraseMemoryMapEntry
    rw [ht]
  have noopFen : ∀ t : LayerState, t.fences.lookup h = none → EraseFenceMapEntry t h = t := by
    intro t ht
    unfold EraseFenceMapEntry
    rw [ht]
  have noopDev : ∀ t : LayerState, t.devices.lookup h = none → EraseDeviceMapEntry t h = t := by
    intro t ht
    unfold EraseDeviceMapEntry
    rw [ht]
  have noopIns : ∀ t : LayerState,
      t.instances.lookup h = none → EraseInstanceMapEntry t h = t := by
    intro t ht
    unfold EraseInstanceMapEntry
    rw [ht]
  exact ⟨noopBuf s, noopBuf _ hbuf, noopImg s, noopImg _ himg, noopMem s, noopMem _ hmem,
    noopFen s, noopFen _ hfen, noopDev s, noopDev _ hdev, noopIns s, noopIns _ hins⟩

/-- Witness for C8: at the concrete C5 state, erasing the absent buffer
handle 100 leaves the state unchanged. -/
theorem registry_erase_idempotent_witness :
    EraseBufferMapEntry c5State 100 = c5State :=
  (registry_erase_idempotent c5State 100).1 rfl

/-! ## Entry-point resolution

Both layers resolve symbol names through fixed tables in precedence
order.  Command names are modelled as an inductive type standing for the
C string constants; looked-up tables are association lists mirroring the
`static const { const char *name; PFN_vkVoidFunction proc; }` arrays. -/

/-- The command names the two layers' resolvers recognise. -/
inductive CmdName where
  | vkGetInstanceProcAddr
  | vkCreateInstance
  | vkCreateDevice
  | vkDestroyInstance
  | vkDestroyDevice
  | vkEnumeratePhysicalDevices
  | vkEnumerateInstanceLayerProperties
  | vkEnumerateInstanceExtensionProperties
  | vkEnumerateDeviceLayerProperties
  | vkEnumerateDeviceExtensionProperties
  | vkGetPhysicalDeviceProperties
  | vkGetPhysicalDeviceMemoryProperties
  | vkGetPhysicalDeviceToolPropertiesEXT
  | vkEnumeratePhysicalDeviceGroups2
  | vkGetPhysicalDeviceProperties2
  | vkGetPhysicalDeviceMemoryProperties2
  | vkGetPhysicalDeviceExternalBufferProperties
  | vkEnumeratePhysicalDeviceGroupsKHR
  | vkGetPhysicalDeviceExternalBufferPropertiesKHR
  | vkGetPhysicalDeviceProperties2KHR
  | vkGetPhysicalDeviceMemoryProperties2KHR
  | vkGetDeviceProcAddr
  | vkCreateBuffer
  | vkDestroyBuffer
  | vkCreateImage
  | vkDestroyImage
  | vkAllocateMemory
  | vkFreeMemory
  | vkBindBufferMemory
  | vkBindImageMemory
  | vkGetBufferMemoryRequirements
  | vkGetImageMemoryRequirements
  | vkGetImageSparseMemoryRequirements
  | vkGetDeviceQueue
  | vkQueueBindSparse
  | vkQueueSubmit
  | vkCreateFence
  | vkDestroyFence
  | vkResetFences
  | vkGetFenceStatus
  | vkWaitForFences
  | vkGetImageMemoryRequirements2
  | vkGetBufferMemoryRequirements2
  | vkBindBufferMemory2
  | vkBindImageMemory2
  | vkQueueSubmit2
  | vkQueueSubmit2KHR
  | vkGetMemoryFdPropertiesKHR
  | vkAcquireNextImageKHR
  | vkAcquireNextImage2KHR
  | vkQueuePresentKHR
  | vkRegisterDeviceEventEXT
  | vkRegisterDisplayEventEXT
deriving DecidableEq, Repr

/-- The implementing functions the layers can hand out (one tag per C++
layer function; both layers' functions of the same name share a tag). -/
inductive LayerFn where
  | GetInstanceProcAddr
  | CreateInstance
  | CreateDevice
  | DestroyInstance
  | DestroyDevice
  | EnumeratePhysicalDevices
  | EnumerateInstanceLayerProperties
  | EnumerateInstanceExtensionProperties
  | EnumerateDeviceLayerProperties
  | EnumerateDeviceExtensionProperties
  | GetPhysicalDeviceProperties
  | GetPhysicalDeviceMemoryProperties
  | GetPhysicalDeviceToolPropertiesEXT
  | EnumeratePhysicalDeviceGroups
  | GetPhysicalDeviceProperties2
  | GetPhysicalDeviceMemoryProperties2
  | GetPhysicalDeviceExternalBufferProperties
  | GetDeviceProcAddr
  | CreateBuffer
  | DestroyBuffer
  | CreateImage
  | DestroyImage
  | AllocateMemory
  | FreeMemory
  | BindBufferMemory
  | BindImageMemory
  | GetBufferMemoryRequirements
  | GetImageMemoryRequirements
  | GetImageSparseMemoryRequirements
  | GetDeviceQueue
  | QueueBindSparse
  | QueueSubmit
  | CreateFence
  | DestroyFence
  | ResetFences
  | GetFenceStatus
  | WaitForFences
  | GetImageMemoryRequirements2
  | GetBufferMemoryRequirements2
  | BindBufferMemory2
  | BindImageMemory2
  | QueueSubmit2
  | GetMemoryFdPropertiesKHR
  | AcquireNextImageKHR
  | AcquireNextImage2KHR
  | QueuePresentKHR
  | RegisterDeviceEventEXT
  | RegisterDisplayEventEXT
deriving DecidableEq, Repr

/-- What a `GetXxxProcAddr` resolution produces: one of this layer's own
functions, or a pointer obtained from the next resolver in the chain
(identified by an opaque token). -/
inductive ResolvedFn where
  | layer (f : LayerFn)
  | next (p : Nat)
deriving DecidableEq, Repr

/-- The linear scan the C++ runs over one command table. -/
def tableLookup (tbl : List (CmdName × LayerFn)) (name : CmdName) : Option LayerFn :=
  List.lookup name tbl

/-- A chain of extension-gated command tables: the first enabled group
containing the name wins, mirroring the sequence of
`if (supported->flag) { ...loop, return... }` blocks. -/
def gatedLookup : List (Bool × List (CmdName × LayerFn)) → CmdName → Option LayerFn
  | [], _ => none
  | (b, tbl) :: rest, name =>
    match (if b then tableLookup tbl name else none) with
    | some f => some f
    | none => gatedLookup rest name

namespace MT

/-- The memory tracker's per-instance extension flags
(`InstanceExtensionsEnabled`, mem_tracker part_000:53-59). -/
structure InstanceExtensionsEnabled where
  core_1_1 : Bool := false
  core_1_2 : Bool := false
  core_1_3 : Bool := false
  KHR_device_group_create : Bool := false
  KHR_get_phys_dev_props2 : Bool := false
deriving DecidableEq, Repr

/-- The memory tracker's device/adapter extension flags
(`DeviceExtensions`, mem_tracker part_000:66-71). -/
structure DeviceExtensions where
  core_1_1 : Bool := false
  core_1_2 : Bool := false
  core_1_3 : Bool := false
  EXT_mem_budget : Bool := false
deriving DecidableEq, Repr

/-- `base_instance_commands` of the memory tracker's
`ImplementedInstanceCommands` (part_000:1106-1130). -/
def baseInstanceCommands : List (CmdName × LayerFn) :=
  [(CmdName.vkGetInstanceProcAddr, LayerFn.GetInstanceProcAddr),
   (CmdName.vkCreateInstance, LayerFn.CreateInstance),
   (CmdName.vkCreateDevice, LayerFn.CreateDevice),
   (CmdName.vkDestroyInstance, LayerFn.DestroyInstance),
   (CmdName.vkDestroyDevice, LayerFn.DestroyDevice),
   (CmdName.vkEnumeratePhysicalDevices, LayerFn.EnumeratePhysicalDevices),
   (CmdName.vkEnumerateInstanceLayerProperties, LayerFn.EnumerateInstanceLayerProperties),
   (CmdName.vkEnumerateInstanceExtensionProperties, LayerFn.EnumerateInstanceExtensionProperties),
   (CmdName.vkEnumerateDeviceLayerProperties, LayerFn.EnumerateDeviceLayerProperties),
   (CmdName.vkEnumerateDeviceExtensionProperties, LayerFn.EnumerateDeviceExtensionProperties),
   (CmdName.vkGetPhysicalDeviceProperties, LayerFn.GetPhysicalDeviceProperties),
   (CmdName.vkGetPhysicalDeviceMemoryProperties, LayerFn.GetPhysicalDeviceMemoryProperties),
   (CmdName.vkGetPhysicalDeviceToolPropertiesEXT, LayerFn.GetPhysicalDeviceToolPropertiesEXT)]

/-- `ImplementedInstanceCommands` (part_000:1106-1130). -/
def ImplementedInstanceCommands (name : CmdName) : Option LayerFn :=
  tableLookup baseInstanceCommands name

/-- `ImplementedInstanceNewerCoreCommands` (part_000:1132-1147): the
core-1.1 gated instance command table. -/
def ImplementedInstanceNewerCoreCommands (inst : InstanceExtensionsEnabled)
    (name : CmdName) : Option LayerFn :=
  gatedLookup
    [(inst.core_1_1,
      [(CmdName.vkEnumeratePhysicalDeviceGroups2, LayerFn.EnumeratePhysicalDeviceGroups),
       (CmdName.vkGetPhysicalDeviceProperties2, LayerFn.GetPhysicalDeviceProperties2),
       (CmdName.vkGetPhysicalDeviceMemoryProperties2, LayerFn.GetPhysicalDeviceMemoryProperties2)])]
    name

/-- `ImplementedInstanceExtensionCommands` (part_000:1149-1173). -/
def ImplementedInstanceExtensionCommands (inst : InstanceExtensionsEnabled)
    (name : CmdName) : Option LayerFn :=
  gatedLookup
    [(inst.KHR_device_group_create,
      [(CmdName.vkEnumeratePhysicalDeviceGroupsKHR, LayerFn.EnumeratePhysicalDeviceGroups)]),
     (inst.KHR_get_phys_dev_props2,
      [(CmdName.vkGetPhysicalDeviceProperties2KHR, LayerFn.GetPhysicalDeviceProperties2),
       (CmdName.vkGetPhysicalDeviceMemoryProperties2KHR,
         LayerFn.GetPhysicalDeviceMemoryProperties2)])]
    name

/-- `core_device_commands` of the memory tracker's
`ImplementedDeviceCommands` (part_000:1196-1223). -/
def coreDeviceCommands : List (CmdName × LayerFn) :=
  [(CmdName.vkGetDeviceProcAddr, LayerFn.GetDeviceProcAddr),
   (CmdName.vkCreateDevice, LayerFn.CreateDevice),
   (CmdName.vkDestroyDevice, LayerFn.DestroyDevice),
   (CmdName.vkCreateBuffer, LayerFn.CreateBuffer),
   (CmdName.vkDestroyBuffer, LayerFn.DestroyBuffer),
   (CmdName.vkCreateImage, LayerFn.CreateImage),
   (CmdName.vkDestroyImage, LayerFn.DestroyImage),
   (CmdName.vkAllocateMemory, LayerFn.AllocateMemory),
   (CmdName.vkFreeMemory, LayerFn.FreeMemory),
   (CmdName.vkBindBufferMemory, LayerFn.BindBufferMemory),
   (CmdName.vkBindImageMemory, LayerFn.BindImageMemory),
   (CmdName.vkGetBufferMemoryRequirements, LayerFn.GetBufferMemoryRequirements),
   (CmdName.vkGetImageMemoryRequirements, LayerFn.GetImageMemoryRequirements),
   (CmdName.vkGetImageSparseMemoryRequirements, LayerFn.GetImageSparseMemoryRequirements),
   (CmdName.vkGetDeviceQueue, LayerFn.GetDeviceQueue),
   (CmdName.vkQueueSubmit, LayerFn.QueueSubmit)]

/-- `ImplementedDeviceCommands` (part_000:1196-1223). -/
def ImplementedDeviceCommands (name : CmdName) : Option LayerFn :=
  tableLookup coreDeviceCommands name

/-- The versioned device-command group of the memory tracker
(part_000:1227-1234). -/
def core11DeviceCommands : List (CmdName × LayerFn) :=
  [(CmdName.vkGetImageMemoryRequirements2, LayerFn.GetImageMemoryRequirements2),
   (CmdName.vkGetBufferMemoryRequirements2, LayerFn.GetBufferMemoryRequirements2),
   (CmdName.vkBindBufferMemory2, LayerFn.BindBufferMemory2),
   (CmdName.vkBindImageMemory2, LayerFn.BindImageMemory2)]

/-- `ImplementedDeviceExtensionCommands` (part_000:1225-1242): the group is
served when `supported == nullptr || supported->core_1_1` — a null
`supported` pointer, as passed on the `GetInstanceProcAddr` path,
bypasses the core-1.1 gate. -/
def ImplementedDeviceExtensionCommands (supported : Option DeviceExtensions)
    (name : CmdName) : Option LayerFn :=
  if (match supported with
      | none => true
      | some s => s.core_1_1) then
    tableLookup core11DeviceCommands name
  else none

/-- The memory tracker's `GetDeviceProcAddr` (part_000:1175-1194): own core
device commands, then the gated device extension commands with the
adapter's recorded `extensions_supported`, then the next layer's
resolver (`down`; `none` models a null table or a null down-chain
pointer). -/
def GetDevProcAddr (ext : DeviceExtensions) (down : CmdName → Option Nat)
    (name : CmdName) : Option ResolvedFn :=
  match ImplementedDeviceCommands name with
  | some f => some (ResolvedFn.layer f)
  | none =>
    match ImplementedDeviceExtensionCommands (some ext) name with
    | some f => some (ResolvedFn.layer f)
    | none => (down name).map ResolvedFn.next

/-- The memory tracker's `GetInstanceProcAddr` (part_000:1069-1104):
base instance commands; null-instance check; gated newer-core and
extension instance commands; core device commands; then
`ImplementedDeviceExtensionCommands(nullptr, name)`; finally the next
resolver. -/
def GetInstProcAddr (instanceNull : Bool) (inst : Option InstanceExtensionsEnabled)
    (down : CmdName → Option Nat) (name : CmdName) : Option ResolvedFn :=
  match ImplementedInstanceCommands name with
  | some f => some (ResolvedFn.layer f)
  | none =>
    if instanceNull then none
    else
      match inst with
      | none => none
      | some imap =>
        match ImplementedInstanceNewerCoreCommands imap name with
        | some f => some (ResolvedFn.layer f)
        | none =>
          match ImplementedInstanceExtensionCommands imap name with
          | some f => some (ResolvedFn.layer f)
          | none =>
            match ImplementedDeviceCommands name with
            | some f => some (ResolvedFn.layer f)
            | none =>
              match ImplementedDeviceExtensionCommands none name with
              | some f => some (ResolvedFn.layer f)
              | none => (down name).map ResolvedFn.next

end MT

namespace Sim

/-- The simulator's per-instance extension flags
(`InstanceExtensionsEnabled`, slow_device_simulator.cpp:89-96). -/
structure InstanceExtensionsEnabled where
  core_1_1 : Bool := false
  core_1_2 : Bool := false
  core_1_3 : Bool := false
  KHR_device_group_create : Bool := false
  KHR_external_mem_caps : Bool := false
  KHR_get_phys_dev_props2 : Bool := false
deriving DecidableEq, Repr

/-- The simulator's device/adapter extension flags (`DeviceExtensions`,
slow_device_simulator.cpp:107-118; the `ANDROID`-only flag is under
`#ifdef` and elided). -/
structure DeviceExtensions where
  core_1_1 : Bool := false
  core_1_2 : Bool := false
  core_1_3 : Bool := false
  KHR_external_mem_fd : Bool := false
  KHR_swapchain : Bool := false
  KHR_sync2 : Bool := false
  EXT_display_control : Bool := false
  EXT_mem_budget : Bool := false
  EXT_swapchain_maintenance1 : Bool := false
deriving DecidableEq, Repr

/-- `base_instance_commands` of the simulator's
`ImplementedInstanceCommands` (slow_device_simulator.cpp:2203-2227). -/
def baseInstanceCommands : List (CmdName × LayerFn) :=
  [(CmdName.vkGetInstanceProcAddr, LayerFn.GetInstanceProcAddr),
   (CmdName.vkCreateInstance, LayerFn.CreateInstance),
   (CmdName.vkCreateDevice, LayerFn.CreateDevice),
   (CmdName.vkDestroyInstance, LayerFn.DestroyInstance),
   (CmdName.vkDestroyDevice, LayerFn.DestroyDevice),
   (CmdName.vkEnumeratePhysicalDevices, LayerFn.EnumeratePhysicalDevices),
   (CmdName.vkEnumerateInstanceLayerProperties, LayerFn.EnumerateInstanceLayerProperties),
   (CmdName.vkEnumerateInstanceExtensionProperties, LayerFn.EnumerateInstanceExtensionProperties),
   (CmdName.vkEnumerateDeviceLayerProperties, LayerFn.EnumerateDeviceLayerProperties),
   (CmdName.vkEnumerateDeviceExtensionProperties, LayerFn.EnumerateDeviceExtensionProperties),
   (CmdName.vkGetPhysicalDeviceProperties, LayerFn.GetPhysicalDeviceProperties),
   (CmdName.vkGetPhysicalDeviceMemoryProperties, LayerFn.GetPhysicalDeviceMemoryProperties),
   (CmdName.vkGetPhysicalDeviceToolPropertiesEXT, LayerFn.GetPhysicalDeviceToolPropertiesEXT)]

/-- `ImplementedInstanceCommands` (slow_device_simulator.cpp:2203-2227). -/
def ImplementedInstanceCommands (name : CmdName) : Option LayerFn :=
  tableLookup baseInstanceCommands name

/-- `ImplementedInstanceNewerCoreCommands`
(slow_device_simulator.cpp:2229-2246). -/
def ImplementedInstanceNewerCoreCommands (inst : InstanceExtensionsEnabled)
    (name : CmdName) : Option LayerFn :=
  gatedLookup
    [(inst.core_1_1,
      [(CmdName.vkEnumeratePhysicalDeviceGroups2, LayerFn.EnumeratePhysicalDeviceGroups),
       (CmdName.vkGetPhysicalDeviceProperties2, LayerFn.GetPhysicalDeviceProperties2),
       (CmdName.vkGetPhysicalDeviceMemoryProperties2, LayerFn.GetPhysicalDeviceMemoryProperties2),
       (CmdName.vkGetPhysicalDeviceExternalBufferProperties,
         LayerFn.GetPhysicalDeviceExternalBufferProperties)])]
    name

/-- `ImplementedInstanceExtensionCommands`
(slow_device_simulator.cpp:2248-2282). -/
def ImplementedInstanceExtensionCommands (inst : InstanceExtensionsEnabled)
    (name : CmdName) : Option LayerFn :=
  gatedLookup
    [(inst.KHR_device_group_create,
      [(CmdName.vkEnumeratePhysicalDeviceGroupsKHR, LayerFn.EnumeratePhysicalDeviceGroups)]),
     (inst.KHR_external_mem_caps,
      [(CmdName.vkGetPhysicalDeviceExternalBufferPropertiesKHR,
         LayerFn.GetPhysicalDeviceExternalBufferProperties)]),
     (inst.KHR_get_phys_dev_props2,
      [(CmdName.vkGetPhysicalDeviceProperties2KHR, LayerFn.GetPhysicalDeviceProperties2),
       (CmdName.vkGetPhysicalDeviceMemoryProperties2KHR,
         LayerFn.GetPhysicalDeviceMemoryProperties2)])]
    name

/-- `core_device_commands` of the simulator's `ImplementedDeviceCommands`
(slow_device_simulator.cpp:2305-2337). -/
def coreDeviceCommands : List (CmdName × LayerFn) :=
  [(CmdName.vkGetDeviceProcAddr, LayerFn.GetDeviceProcAddr),
   (CmdName.vkCreateDevice, LayerFn.CreateDevice),
   (CmdName.vkDestroyDevice, LayerFn.DestroyDevice),
   (CmdName.vkCreateBuffer, LayerFn.CreateBuffer),
   (CmdName.vkDestroyBuffer, LayerFn.DestroyBuffer),
   (CmdName.vkCreateImage, LayerFn.CreateImage),
   (CmdName.vkDestroyImage, LayerFn.DestroyImage),
   (CmdName.vkAllocateMemory, LayerFn.AllocateMemory),
   (CmdName.vkFreeMemory, LayerFn.FreeMemory),
   (CmdName.vkBindBufferMemory, LayerFn.BindBufferMemory),
   (CmdName.vkBindImageMemory, LayerFn.BindImageMemory),
   (CmdName.vkGetBufferMemoryRequirements, LayerFn.GetBufferMemoryRequirements),
   (CmdName.vkGetImageMemoryRequirements, LayerFn.GetImageMemoryRequirements),
   (CmdName.vkGetDeviceQueue, LayerFn.GetDeviceQueue),
   (CmdName.vkQueueBindSparse, LayerFn.QueueBindSparse),
   (CmdName.vkQueueSubmit, LayerFn.QueueSubmit),
   (CmdName.vkCreateFence, LayerFn.CreateFence),
   (CmdName.vkDestroyFence, LayerFn.DestroyFence),
   (CmdName.vkResetFences, LayerFn.ResetFences),
   (CmdName.vkGetFenceStatus, LayerFn.GetFenceStatus),
   (CmdName.vkWaitForFences, LayerFn.WaitForFences)]

/-- `ImplementedDeviceCommands` (slow_device_simulator.cpp:2305-2337). -/
def ImplementedDeviceCommands (name : CmdName) : Option LayerFn :=
  tableLookup coreDeviceCommands name

/-- The simulator's `ImplementedDeviceExtensionCommands`
(slow_device_simulator.cpp:2339-2425): a null `supported` pointer, as
passed on the `GetInstanceProcAddr` path, declines every gated group; the
groups are gated by the adapter's recorded core-version and extension
flags. -/
def ImplementedDeviceExtensionCommands (supported : Option DeviceExtensions)
    (name : CmdName) : Option LayerFn :=
  match supported with
  | none => none
  | some s =>
    gatedLookup
      [(s.core_1_1,
        [(CmdName.vkGetImageMemoryRequirements2, LayerFn.GetImageMemoryRequirements2),
         (CmdName.vkGetBufferMemoryRequirements2, LayerFn.GetBufferMemoryRequirements2),
         (CmdName.vkBindBufferMemory2, LayerFn.BindBufferMemory2),
         (CmdName.vkBindImageMemory2, LayerFn.BindImageMemory2)]),
       (s.core_1_3,
        [(CmdName.vkQueueSubmit2, LayerFn.QueueSubmit2)]),
       (s.KHR_external_mem_fd,
        [(CmdName.vkGetMemoryFdPropertiesKHR, LayerFn.GetMemoryFdPropertiesKHR)]),
       (s.KHR_sync2,
        [(CmdName.vkQueueSubmit2KHR, LayerFn.QueueSubmit2)]),
       (s.KHR_swapchain,
        [(CmdName.vkAcquireNextImageKHR, LayerFn.AcquireNextImageKHR),
         (CmdName.vkAcquireNextImage2KHR, LayerFn.AcquireNextImage2KHR),
         (CmdName.vkQueuePresentKHR, LayerFn.QueuePresentKHR)]),
       (s.EXT_display_control,
        [(CmdName.vkRegisterDeviceEventEXT, LayerFn.RegisterDeviceEventEXT),
         (CmdName.vkRegisterDisplayEventEXT, LayerFn.RegisterDisplayEventEXT)])]
      name

/-- The simulator's `GetDeviceProcAddr`
(slow_device_simulator.cpp:2284-2303). -/
def GetDevProcAddr (ext : DeviceExtensions) (down : CmdName → Option Nat)
    (name : CmdName) : Option ResolvedFn :=
  match ImplementedDeviceCommands name with
  | some f => some (ResolvedFn.layer f)
  | none =>
    match ImplementedDeviceExtensionCommands (some ext) name with
    | some f => some (ResolvedFn.layer f)
    | none => (down name).map ResolvedFn.next

/-- The simulator's `GetInstanceProcAddr`
(slow_device_simulator.cpp:2166-2201). -/
def GetInstProcAddr (instanceNull : Bool) (inst : Option InstanceExtensionsEnabled)
    (down : CmdName → Option Nat) (name : CmdName) : Option ResolvedFn :=
  match ImplementedInstanceCommands name with
  | some f => some (ResolvedFn.layer f)
  | none =>
    if instanceNull then none
    else
      match inst with
      | none => none
      | some imap =>
        match ImplementedInstanceNewerCoreCommands imap name with
        | some f => some (ResolvedFn.layer f)
        | none =>
          match ImplementedInstanceExtensionCommands imap name with
          | some f => some (ResolvedFn.layer f)
          | none =>
            match ImplementedDeviceCommands name with
            | some f => some (ResolvedFn.layer f)
            | none =>
              match ImplementedDeviceExtensionCommands none name with
              | some f => some (ResolvedFn.layer f)
              | none => (down name).map ResolvedFn.next

end Sim

/-- Counterexample to C6 as stated: on the memory tracker's
`GetInstanceProcAddr` path, `"vkBindBufferMemory2"` resolves to the
layer's implementing function even though every recorded core-version and
extension flag of the instance is false (with the down-chain resolver
returning null for every name), because the null `supported` pointer
passed on that path bypasses the core-1.1 gate — the claim says the
resolution must be null while the flag is false. -/
theorem extension_gated_resolution_counterexample :
    MT.GetInstProcAddr false (some {}) (fun _ => none) CmdName.vkBindBufferMemory2 =
      some (ResolvedFn.layer LayerFn.BindBufferMemory2) ∧
    MT.GetInstProcAddr false (some {}) (fun _ => none) CmdName.vkBindBufferMemory2 ≠ none := by
  decide

/-- C6 (amended): on the `GetDeviceProcAddr` path of both layers,
`"vkBindBufferMemory2"` resolves to the layer's implementing function
exactly when the adapter's recorded core-1.1 flag is true, and otherwise
the lookup declines the symbol and falls through to the down-chain
resolver (so it is null when the down-chain resolver yields null).  On
the `GetInstanceProcAddr` path the recorded flags are not consulted: the
simulator passes a null `supported` pointer, which declines every gated
group and falls through to the down-chain resolver, while the memory
tracker's null `supported` pointer bypasses the gate and yields the
implementing function unconditionally. -/
theorem extension_gated_resolution :
    (∀ (s : MT.DeviceExtensions) (down : CmdName → Option Nat),
      (s.core_1_1 = false →
        MT.ImplementedDeviceExtensionCommands (some s) CmdName.vkBindBufferMemory2 = none ∧
        MT.GetDevProcAddr s down CmdName.vkBindBufferMemory2 =
          (down CmdName.vkBindBufferMemory2).map ResolvedFn.next) ∧
      (s.core_1_1 = true →
        MT.ImplementedDeviceExtensionCommands (some s) CmdName.vkBindBufferMemory2 =
          some LayerFn.BindBufferMemory2 ∧
        MT.GetDevProcAddr s down CmdName.vkBindBufferMemory2 =
          some (ResolvedFn.layer LayerFn.BindBufferMemory2))) ∧
    (∀ (s : Sim.DeviceExtensions) (down : CmdName → Option Nat),
      (s.core_1_1 = false →
        Sim.ImplementedDeviceExtensionCommands (some s) CmdName.vkBindBufferMemory2 = none ∧
        Sim.GetDevProcAddr s down CmdName.vkBindBufferMemory2 =
          (down CmdName.vkBindBufferMemory2).map ResolvedFn.next) ∧
      (s.core_1_1 = true →
        Sim.ImplementedDeviceExtensionCommands (some s) CmdName.vkBindBufferMemory2 =
          some LayerFn.BindBufferMemory2 ∧
        Sim.GetDevProcAddr s down CmdName.vkBindBufferMemory2 =
          some (ResolvedFn.layer LayerFn.BindBufferMemory2))) ∧
    (∀ (inst : Sim.InstanceExtensionsEnabled) (down : CmdName → Option Nat),
      Sim.GetInstProcAddr false (some inst) down CmdName.vkBindBufferMemory2 =
        (down CmdName.vkBindBufferMemory2).map ResolvedFn.next) ∧
    (∀ (inst : MT.InstanceExtensionsEnabled) (down : CmdName → Option Nat),
      MT.GetInstProcAddr false (some inst) down CmdName.vkBindBufferMemory2 =
        some (ResolvedFn.layer LayerFn.BindBufferMemory2)) := by
  refine ⟨?_, ?_, ?_, ?_⟩
  · intro s down
    obtain ⟨c11, c12, c13, mb⟩ := s
    constructor
    · intro h
      cases h
      exact ⟨rfl, rfl⟩
    · intro h
      cases h
      exact ⟨rfl, rfl⟩
  · intro s down
    obtain ⟨c11, c12, c13, fd, sc, sy, dc, mb, sm⟩ := s
    constructor
    · intro h
      cases h
      cases c13 <;> cases fd <;> cases sy <;> cases sc <;> cases dc <;> exact ⟨rfl, rfl⟩
    · intro h
      cases h
      exact ⟨rfl, rfl⟩
  · intro inst down
    obtain ⟨c11, c12, c13, dgc, emc, pdp2⟩ := inst
    cases c11 <;> cases dgc <;> cases emc <;> cases pdp2 <;> rfl
  · intro inst down
    obtain ⟨c11, c12, c13, dgc, pdp2⟩ := inst
    cases c11 <;> cases dgc <;> cases pdp2 <;> rfl

/-- Witness for C6 (amended): in the simulator, with only `core_1_1`
recorded true, the device-path lookup of `"vkBindBufferMemory2"` returns
the layer's `BindBufferMemory2`; with it false the lookup declines and
the resolution is null when the down-chain resolver yields null. -/
theorem extension_gated_resolution_witness :
    Sim.ImplementedDeviceExtensionCommands (some { core_1_1 := true })
      CmdName.vkBindBufferMemory2 = some LayerFn.BindBufferMemory2 ∧
    Sim.GetDevProcAddr { core_1_1 := true } (fun _ => none)
      CmdName.vkBindBufferMemory2 = some (ResolvedFn.layer LayerFn.BindBufferMemory2) ∧
    Sim.GetDevProcAddr {} (fun _ => none) CmdName.vkBindBufferMemory2 =
      (Option.map ResolvedFn.next none) :=
  ⟨(extension_gated_resolution.2.1 { core_1_1 := true } (fun _ => none)).2 rfl |>.1,
   (extension_gated_resolution.2.1 { core_1_1 := true } (fun _ => none)).2 rfl |>.2,
   (extension_gated_resolution.2.1 {} (fun _ => none)).1 rfl |>.2⟩

/-! ## Result propagation of intercepted calls -/

/-- The memory tracker's `AllocateMemory` (mem_tracker part_001:1390-1475)
as seen by the shadow memory map and the returned code: the down-chain
result is returned unchanged, and only on `VK_SUCCESS` is a shadow record
inserted. -/
def mtAllocateMemory (m : HandleMap MemoryMapStruct) (downResult : VkResult)
    (memHandle device allocationSize memoryTypeIndex : Nat) :
    VkResult × HandleMap MemoryMapStruct :=
  if downResult = VkResult.SUCCESS then
    (VkResult.SUCCESS, m.insert memHandle
      { device := device, allocationSize := allocationSize,
        memoryTypeIndex := memoryTypeIndex, buffers := [], images := [] })
  else (downResult, m)

/-- The return value of the simulator's `GetPhysicalDeviceToolPropertiesEXT`
(slow_device_simulator.cpp:717-756).  The function opens with an
uninitialized `VkResult result;`.  In the enabled branch the line
`VkResult result = ...GetPhysicalDeviceToolPropertiesEXT(...)` declares a
NEW inner variable that shadows the outer one, so the outer,
uninitialized `result` is what the function returns — an indeterminate
value, modelled as `none`.  In the disabled branch the outer `result` is
assigned the down-chain code and returned. -/
def simGetPhysicalDeviceToolProperties (layer_enabled : Bool) (downResult : VkResult) :
    Option VkResult :=
  if layer_enabled then none else some downResult

/-- The return value of the simulator's
`EnumerateInstanceExtensionProperties` (slow_device_simulator.cpp:506-515):
the function computes `result` from the utility call when the layer name
matches, but its final statement returns the constant
`VK_ERROR_LAYER_NOT_PRESENT` regardless, discarding the computed code. -/
def simEnumerateInstanceExtensionProperties (layerNameMatches : Bool)
    (utilResult : VkResult) : VkResult :=
  VkResult.ERROR_LAYER_NOT_PRESENT

/-- C7: on down-chain failure the memory tracker's `AllocateMemory` indeed
leaves the shadow map untouched and returns the exact failure code — but
the claim fails as a universal statement: the simulator's
`GetPhysicalDeviceToolPropertiesEXT` on an enabled instance returns an
indeterminate (uninitialized) value instead of the down-chain code, due
to the shadowed inner `result` declaration, and its
`EnumerateInstanceExtensionProperties` discards the computed result and
always returns `VK_ERROR_LAYER_NOT_PRESENT`. -/
theorem upstream_failure_passthrough_violation :
    (mtAllocateMemory c2EmptyMem VkResult.ERROR_OUT_OF_HOST_MEMORY 5 1 64 0).1 =
      VkResult.ERROR_OUT_OF_HOST_MEMORY ∧
    (mtAllocateMemory c2EmptyMem VkResult.ERROR_OUT_OF_HOST_MEMORY 5 1 64 0).2 = c2EmptyMem ∧
    simGetPhysicalDeviceToolProperties true VkResult.ERROR_OUT_OF_HOST_MEMORY = none ∧
    simGetPhysicalDeviceToolProperties true VkResult.SUCCESS = none ∧
    simGetPhysicalDeviceToolProperties false VkResult.ERROR_OUT_OF_HOST_MEMORY =
      some VkResult.ERROR_OUT_OF_HOST_MEMORY ∧
    simEnumerateInstanceExtensionProperties true VkResult.SUCCESS =
      VkResult.ERROR_LAYER_NOT_PRESENT := by
  exact ⟨rfl, rfl, rfl, rfl, rfl, rfl⟩

/-! ## The memory-budget search over the pNext chain -/

/-- The structure-type tags relevant to the `pNext`-chain search in
`GetPhysicalDeviceMemoryProperties2`. -/
inductive VkStructureTypeTag where
  | memoryBudgetPropertiesEXT
  | otherStruct (code : Nat)
deriving DecidableEq, Repr

/-- The `while (next_chain != nullptr)` loop of
`GetPhysicalDeviceMemoryProperties2` (mem_tracker part_001:921-926 and
slow_device_simulator.cpp:845-850), run with an explicit fuel: the loop
body checks whether the current structure is the memory-budget structure
and breaks when it is, but NEVER advances `next_chain`, so the loop state
is unchanged on a non-matching head.  `some found` models loop exit
(`found` saying whether the budget structure was taken); `none` models
fuel exhaustion, i.e. the loop has not terminated within `fuel`
iterations. -/
def memBudgetSearchLoop : Nat → List VkStructureTypeTag → Option Bool
  | 0, _ => none
  | _ + 1, [] => some false
  | fuel + 1, t :: rest =>
    if t = VkStructureTypeTag.memoryBudgetPropertiesEXT then some true
    else memBudgetSearchLoop fuel (t :: rest)

/-- C9: the pNext search loop terminates on the empty chain and on a chain
headed by the budget structure, but on any non-empty chain whose first
element is not the budget structure it never terminates — no amount of
fuel reaches loop exit, because the loop body never advances
`next_chain`.  The claim that the loop terminates for every finite chain
fails on such chains. -/
theorem memory_budget_chain_loop_divergence :
    (∀ fuel : Nat, memBudgetSearchLoop (fuel + 1) [] = some false) ∧
    (∀ (fuel : Nat) (rest : List VkStructureTypeTag),
      memBudgetSearchLoop (fuel + 1)
        (VkStructureTypeTag.memoryBudgetPropertiesEXT :: rest) = some true) ∧
    (∀ (fuel code : Nat) (rest : List VkStructureTypeTag),
      memBudgetSearchLoop fuel (VkStructureTypeTag.otherStruct code :: rest) = none) := by
  refine ⟨fun fuel => rfl, fun fuel rest => rfl, fun fuel code rest => ?_⟩
  induction fuel with
  | zero => rfl
  | succ n ih =>
    show (if VkStructureTypeTag.otherStruct code =
        VkStructureTypeTag.memoryBudgetPropertiesEXT then some true
      else memBudgetSearchLoop n (VkStructureTypeTag.otherStruct code :: rest)) = none
    rw [if_neg (by simp)]
    exact ih

end VulkanTools
